import Mathlib

/-!
Scalene sampling heap (include/sampleheap.hpp)

A shallow embedding of the two sampling timers and of the `SampleHeap`
decorator, followed by theorems about them.

Modelling conventions
* machine integers are 64 bits wide: a `long` is an `Int` in
  `[-2^63, 2^63)` and a `size_t` is a `Nat` below `2^64`. The two arithmetic
  operations of the code are reduced as the machine does: `_mallocOps += sz`
  is `addAssign64` and `2 * sz` is `(2 * sz) % 2 ^ 64`.
* `registerMallocExact`, `registerFreeExact` and `feedExact` are the same
  timers over unbounded integers, for the statements that speak of exact
  arithmetic without overflow; they are compared with the code in C18.
* a `double` sample count is an exact rational (`ℚ`); the truthiness test
  `if (count = ...)` is `count ≠ 0`.
* a pointer is a `Nat`, and `nullptr` is `0`.
* the wrapped heap (template parameter `SuperHeap`) is a record of three
  state-passing functions over an arbitrary heap state `H`.
* side effects (calls into the wrapped heap, system calls, `raise`) are
  recorded, in program order, in a list of `Event`s.
* `assert` comes from a header outside this file: a failed assertion aborts
  the call unless the build defines `NDEBUG`, which is a field of `Config`.
* `DISABLE_SIGNALS` is 0, so `raise` is the library call, and `USE_ATOMICS`
  is 0, so `counterType` is a plain `long`.
-/

namespace Scalene

set_option linter.unusedVariables false

/-! ## Constants -/

/-- File that receives the allocation sample counts. -/
def scalene_malloc_signal_filename : String := "/tmp/scalene-malloc-signal"

/-- File that receives the deallocation sample counts. -/
def scalene_free_signal_filename : String := "/tmp/scalene-free-signal"

/-- The two signal numbers the decorator uses. -/
inductive Signal where
  | SIGXCPU
  | SIGPROF
deriving DecidableEq, Repr

/-- Value of `enum { MallocSignal = SIGXCPU }`. -/
def MallocSignal : Signal := Signal.SIGXCPU

/-- Value of `enum { FreeSignal = SIGPROF }`. -/
def FreeSignal : Signal := Signal.SIGPROF

/-- The null pointer. -/
def nullptr : Nat := 0

/-! ## Observable effects -/

/-- One externally visible action of the decorator, in program order. -/
inductive Event where
  /-- Call of `SuperHeap::malloc(sz)`. -/
  | superMalloc (sz : Nat)
  /-- Call of `SuperHeap::getSize(ptr)`. -/
  | superGetSize (ptr : Nat)
  /-- Call of `SuperHeap::free(ptr)`. -/
  | superFree (ptr : Nat)
  /-- Call of `open(fname, flags, perms)`. -/
  | openFile (fname : String)
  /-- Call of `write(fd, buf, strlen(buf))`, `buf` being the formatted `count`. -/
  | writeFile (fname : String) (count : ℚ)
  /-- Call of `close(fd)`. -/
  | closeFile (fname : String)
  /-- Call of `raise(sig)`. -/
  | raise (sig : Signal)
  /-- Call of `signal(sig, SIG_IGN)`. -/
  | signalIgnore (sig : Signal)
  /-- Call of `unlink(fname)`. -/
  | unlink (fname : String)
deriving DecidableEq

/-- The counts written to file `fname` in a trace, oldest first. -/
def writesTo (fname : String) : List Event → List ℚ
  | [] => []
  | Event.writeFile g c :: rest =>
      if g = fname then c :: writesTo fname rest else writesTo fname rest
  | _ :: rest => writesTo fname rest

/-- All file writes of a trace (file name and count), oldest first. -/
def fileWrites : List Event → List (String × ℚ)
  | [] => []
  | Event.writeFile g c :: rest => (g, c) :: fileWrites rest
  | _ :: rest => fileWrites rest

/-- All signals raised in a trace, oldest first. -/
def raises : List Event → List Signal
  | [] => []
  | Event.raise s :: rest => s :: raises rest
  | _ :: rest => raises rest

/-- The calls the wrapped heap receives through `malloc` and `free`. -/
def superMallocFreeCalls : List Event → List Event
  | [] => []
  | Event.superMalloc sz :: rest => Event.superMalloc sz :: superMallocFreeCalls rest
  | Event.superFree p :: rest => Event.superFree p :: superMallocFreeCalls rest
  | _ :: rest => superMallocFreeCalls rest

/-- The `getSize` queries the wrapped heap receives. -/
def superGetSizeCalls : List Event → List Nat
  | [] => []
  | Event.superGetSize p :: rest => p :: superGetSizeCalls rest
  | _ :: rest => superGetSizeCalls rest

/-! ## Machine arithmetic -/

/-- Conversion of a `long` to `unsigned long` (64 bits, two's complement). -/
def toUnsigned64 (x : Int) : Nat := (x % 2 ^ 64).toNat

/-- Conversion of an `unsigned long` to `long` (64 bits, two's complement). -/
def toLong64 (n : Nat) : Int :=
  if n % 2 ^ 64 < 2 ^ 63 then ((n % 2 ^ 64 : Nat) : Int) else ((n % 2 ^ 64 : Nat) : Int) - 2 ^ 64

/-- Statement `_mallocOps += sz` with `counterType = long` and `sz` a `size_t`:
the sum is formed in `unsigned long`, modulo `2^64`, and stored back as a `long`. -/
def addAssign64 (ops : Int) (sz : Nat) : Int :=
  toLong64 ((toUnsigned64 ops + sz % 2 ^ 64) % 2 ^ 64)

/-! ## Timers -/

/-- State of `MallocTimer<TimerInterval>`: the field `_mallocOps`. -/
structure MallocTimer where
  mallocOps : Int
deriving DecidableEq, Repr

/-- Constructor `MallocTimer()`: `_mallocOps(0)`. -/
def MallocTimer.ctor : MallocTimer := { mallocOps := 0 }

/-- Method `MallocTimer::registerMalloc(sz)`: returned count and next state. -/
def MallocTimer.registerMalloc (TimerInterval : Int) (t : MallocTimer) (sz : Nat) :
    ℚ × MallocTimer :=
  let ops : Int := addAssign64 t.mallocOps sz
  if ops ≥ TimerInterval then
    ((ops : ℚ) / (TimerInterval : ℚ), { mallocOps := 0 })
  else
    (0, { mallocOps := ops })

/-- State of `FreeTimer<TimerInterval>`: the field `_freeOps`. -/
structure FreeTimer where
  freeOps : Int
deriving DecidableEq, Repr

/-- Constructor `FreeTimer()`: `_freeOps(0)`. -/
def FreeTimer.ctor : FreeTimer := { freeOps := 0 }

/-- Method `FreeTimer::registerFree(sz)`: returned count and next state. -/
def FreeTimer.registerFree (TimerInterval : Int) (t : FreeTimer) (sz : Nat) :
    ℚ × FreeTimer :=
  let ops : Int := addAssign64 t.freeOps sz
  if ops ≥ TimerInterval then
    ((ops : ℚ) / (TimerInterval : ℚ), { freeOps := 0 })
  else
    (0, { freeOps := ops })

/-- Feed a list of sizes to an allocation timer: the counts returned by the
successive `registerMalloc` calls, and the timer afterwards. -/
def MallocTimer.feed (TimerInterval : Int) (t : MallocTimer) :
    List Nat → List ℚ × MallocTimer
  | [] => ([], t)
  | sz :: rest =>
      let r := MallocTimer.registerMalloc TimerInterval t sz
      let k := MallocTimer.feed TimerInterval r.2 rest
      (r.1 :: k.1, k.2)

/-- Feed a list of sizes to a deallocation timer: the counts returned by the
successive `registerFree` calls, and the timer afterwards. -/
def FreeTimer.feed (TimerInterval : Int) (t : FreeTimer) :
    List Nat → List ℚ × FreeTimer
  | [] => ([], t)
  | sz :: rest =>
      let r := FreeTimer.registerFree TimerInterval t sz
      let k := FreeTimer.feed TimerInterval r.2 rest
      (r.1 :: k.1, k.2)

/-- No addition wraps while the sizes are fed to the allocation timer: at each
call the accumulator plus the size stays below `2^63`. -/
def MallocTimer.noWrap (TimerInterval : Int) (t : MallocTimer) : List Nat → Bool
  | [] => true
  | sz :: rest =>
      decide (t.mallocOps + (sz : Int) < 2 ^ 63)
        && MallocTimer.noWrap TimerInterval
            (MallocTimer.registerMalloc TimerInterval t sz).2 rest

/-- No addition wraps while the sizes are fed to the deallocation timer. -/
def FreeTimer.noWrap (TimerInterval : Int) (t : FreeTimer) : List Nat → Bool
  | [] => true
  | sz :: rest =>
      decide (t.freeOps + (sz : Int) < 2 ^ 63)
        && FreeTimer.noWrap TimerInterval
            (FreeTimer.registerFree TimerInterval t sz).2 rest

/-! ## Timers over unbounded integers -/

/-- Idealised `registerMalloc`: the same method with `_mallocOps += sz` taken
over unbounded integers (exact arithmetic, no overflow). -/
def MallocTimer.registerMallocExact (TimerInterval : Int) (t : MallocTimer) (sz : Nat) :
    ℚ × MallocTimer :=
  let ops : Int := t.mallocOps + (sz : Int)
  if ops ≥ TimerInterval then
    ((ops : ℚ) / (TimerInterval : ℚ), { mallocOps := 0 })
  else
    (0, { mallocOps := ops })

/-- Idealised `registerFree`: the same method with `_freeOps += sz` taken over
unbounded integers (exact arithmetic, no overflow). -/
def FreeTimer.registerFreeExact (TimerInterval : Int) (t : FreeTimer) (sz : Nat) :
    ℚ × FreeTimer :=
  let ops : Int := t.freeOps + (sz : Int)
  if ops ≥ TimerInterval then
    ((ops : ℚ) / (TimerInterval : ℚ), { freeOps := 0 })
  else
    (0, { freeOps := ops })

/-- Feed a list of sizes to the idealised allocation timer. -/
def MallocTimer.feedExact (TimerInterval : Int) (t : MallocTimer) :
    List Nat → List ℚ × MallocTimer
  | [] => ([], t)
  | sz :: rest =>
      let r := MallocTimer.registerMallocExact TimerInterval t sz
      let k := MallocTimer.feedExact TimerInterval r.2 rest
      (r.1 :: k.1, k.2)

/-- Feed a list of sizes to the idealised deallocation timer. -/
def FreeTimer.feedExact (TimerInterval : Int) (t : FreeTimer) :
    List Nat → List ℚ × FreeTimer
  | [] => ([], t)
  | sz :: rest =>
      let r := FreeTimer.registerFreeExact TimerInterval t sz
      let k := FreeTimer.feedExact TimerInterval r.2 rest
      (r.1 :: k.1, k.2)

/-! ## The decorator -/

/-- The wrapped heap: what the template parameter `SuperHeap` supplies.
Each function takes the heap state and returns its result with the new state. -/
structure SuperHeap (H : Type) where
  /-- Method `SuperHeap::malloc(sz)`: a pointer, or `nullptr`. -/
  malloc : H → Nat → Nat × H
  /-- Method `SuperHeap::getSize(ptr)`: the actual size of the block. -/
  getSize : H → Nat → Nat × H
  /-- Method `SuperHeap::free(ptr)`: the actual size that was freed. -/
  free : H → Nat → Nat × H

/-- Compile-time configuration of `SampleHeap`: its two template constants
and whether the build defines `NDEBUG` (which turns `assert` into nothing). -/
structure Config where
  MallocSamplingRateBytes : Int
  FreeSamplingRateBytes : Int
  NDEBUG : Bool

/-- State of a `SampleHeap` object: its two timers and the base-class heap. -/
structure SampleHeap (H : Type) where
  mallocTimer : MallocTimer
  freeTimer : FreeTimer
  super : H

/-- Outcome of a member-function call: the value returned (`none` when an
assertion failed and the process aborted instead of returning), the object
afterwards, and the events of the call. -/
structure Exec (H : Type) (α : Type) where
  ret : Option α
  heap : SampleHeap H
  trace : List Event

/-- Macro `assert(cond)`: does the execution go on past it. -/
def assertPasses (cfg : Config) (cond : Bool) : Bool :=
  cfg.NDEBUG || cond

/-- Method `SampleHeap::writeCount(fname, count)`: open, write, close. -/
def SampleHeap.writeCount (fname : String) (count : ℚ) : List Event :=
  [Event.openFile fname, Event.writeFile fname count, Event.closeFile fname]

/-- Constructor `SampleHeap()`: both signals are set to be ignored. -/
def SampleHeap.ctor {H : Type} (super : H) : SampleHeap H × List Event :=
  ({ mallocTimer := MallocTimer.ctor, freeTimer := FreeTimer.ctor, super := super },
   [Event.signalIgnore MallocSignal, Event.signalIgnore FreeSignal])

/-- Destructor `~SampleHeap()`: both signal log files are unlinked. -/
def SampleHeap.dtor {H : Type} (_h : SampleHeap H) : List Event :=
  [Event.unlink scalene_malloc_signal_filename, Event.unlink scalene_free_signal_filename]

/-- Method `SampleHeap::malloc(sz)`. The product `2 * sz` of the second
assertion is taken in `size_t`, that is modulo `2^64`. -/
def SampleHeap.malloc {H : Type} (S : SuperHeap H) (cfg : Config)
    (h : SampleHeap H) (sz : Nat) : Exec H Nat :=
  let m := S.malloc h.super sz
  let ptr := m.1
  if ptr ≠ nullptr then
    let g := S.getSize m.2 ptr
    let realSize := g.1
    let pre : List Event := [Event.superMalloc sz, Event.superGetSize ptr]
    if assertPasses cfg (decide (realSize ≥ sz)) = false then
      { ret := none, heap := { h with super := g.2 }, trace := pre }
    else if assertPasses cfg
        (decide (sz < 16) || decide (realSize ≤ (2 * sz) % 2 ^ 64)) = false then
      { ret := none, heap := { h with super := g.2 }, trace := pre }
    else
      let r := MallocTimer.registerMalloc cfg.MallocSamplingRateBytes h.mallocTimer realSize
      let count := r.1
      if count ≠ 0 then
        { ret := some ptr
          heap := { h with mallocTimer := r.2, super := g.2 }
          trace := pre ++ SampleHeap.writeCount scalene_malloc_signal_filename count
                     ++ [Event.raise MallocSignal] }
      else
        { ret := some ptr
          heap := { h with mallocTimer := r.2, super := g.2 }
          trace := pre }
  else
    { ret := some ptr, heap := { h with super := m.2 }, trace := [Event.superMalloc sz] }

/-- Method `SampleHeap::free(ptr)`. -/
def SampleHeap.free {H : Type} (S : SuperHeap H) (cfg : Config)
    (h : SampleHeap H) (ptr : Nat) : Exec H Unit :=
  if ptr = nullptr then
    { ret := some (), heap := h, trace := [] }
  else
    let f := S.free h.super ptr
    let realSize := f.1
    let r := FreeTimer.registerFree cfg.FreeSamplingRateBytes h.freeTimer realSize
    let count := r.1
    if count ≠ 0 then
      { ret := some ()
        heap := { h with freeTimer := r.2, super := f.2 }
        trace := [Event.superFree ptr]
                   ++ SampleHeap.writeCount scalene_free_signal_filename count
                   ++ [Event.raise FreeSignal] }
    else
      { ret := some ()
        heap := { h with freeTimer := r.2, super := f.2 }
        trace := [Event.superFree ptr] }

/-! ## Sequences of calls -/

/-- A request a client makes to a heap. -/
inductive Call where
  | malloc (sz : Nat)
  | free (ptr : Nat)
deriving DecidableEq

/-- Outcome of a sequence of calls made to the decorator: the values returned
by the completed calls (`some ptr` for a `malloc`, `none` for a `free`), the
object afterwards, all events, and whether an assertion aborted the sequence. -/
structure Run (H : Type) where
  rets : List (Option Nat)
  heap : SampleHeap H
  trace : List Event
  aborted : Bool

/-- The decorator serving a sequence of calls; it stops at a failed assertion. -/
def SampleHeap.run {H : Type} (S : SuperHeap H) (cfg : Config) :
    SampleHeap H → List Call → Run H
  | h, [] => { rets := [], heap := h, trace := [], aborted := false }
  | h, Call.malloc sz :: rest =>
      let e := SampleHeap.malloc S cfg h sz
      match e.ret with
      | none => { rets := [], heap := e.heap, trace := e.trace, aborted := true }
      | some p =>
          let k := SampleHeap.run S cfg e.heap rest
          { rets := some p :: k.rets, heap := k.heap, trace := e.trace ++ k.trace,
            aborted := k.aborted }
  | h, Call.free ptr :: rest =>
      let e := SampleHeap.free S cfg h ptr
      match e.ret with
      | none => { rets := [], heap := e.heap, trace := e.trace, aborted := true }
      | some _ =>
          let k := SampleHeap.run S cfg e.heap rest
          { rets := none :: k.rets, heap := k.heap, trace := e.trace ++ k.trace,
            aborted := k.aborted }

/-- Outcome of a sequence of calls made to the wrapped heap directly. -/
structure DirectRun (H : Type) where
  rets : List (Option Nat)
  state : H
  trace : List Event

/-- The wrapped heap serving a sequence of calls without the decorator. -/
def SuperHeap.run {H : Type} (S : SuperHeap H) : H → List Call → DirectRun H
  | s, [] => { rets := [], state := s, trace := [] }
  | s, Call.malloc sz :: rest =>
      let m := S.malloc s sz
      let k := SuperHeap.run S m.2 rest
      { rets := some m.1 :: k.rets, state := k.state, trace := Event.superMalloc sz :: k.trace }
  | s, Call.free ptr :: rest =>
      let f := S.free s ptr
      let k := SuperHeap.run S f.2 rest
      { rets := none :: k.rets, state := k.state, trace := Event.superFree ptr :: k.trace }

/-! ## Example heaps, used to instantiate the theorems -/

/-- State of the example heap: next unused address and the blocks handed out
(address and actual size). -/
structure BumpState where
  next : Nat
  blocks : List (Nat × Nat)
deriving DecidableEq, Repr

/-- Example wrapped heap: a bump allocator over the addresses below `limit`
whose block for a request of `sz` bytes has actual size `cls sz`. -/
def bumpHeap (cls : Nat → Nat) (limit : Nat) : SuperHeap BumpState where
  malloc st sz :=
    if st.next + cls sz ≤ limit then
      (st.next, { next := st.next + cls sz, blocks := (st.next, cls sz) :: st.blocks })
    else
      (nullptr, st)
  getSize st p := ((st.blocks.lookup p).getD 0, st)
  free st p :=
    ((st.blocks.lookup p).getD 0, { st with blocks := st.blocks.filter (fun b => b.1 != p) })

/-- Initial state of the example heap: nothing allocated, first address 4096. -/
def bumpInit : BumpState := { next := 4096, blocks := [] }

/-- Example heap whose blocks have exactly the requested size. -/
def exactHeap : SuperHeap BumpState := bumpHeap (fun sz => sz) 1000000

/-- Example heap that hands out whole chunks of 1024 bytes. -/
def chunkHeap : SuperHeap BumpState :=
  bumpHeap (fun sz => ((sz + 1023) / 1024) * 1024) 1000000

/-- Example configuration: both thresholds 1000 bytes, assertions enabled. -/
def demoConfig : Config :=
  { MallocSamplingRateBytes := 1000, FreeSamplingRateBytes := 1000, NDEBUG := false }

/-! ## Lifetime of a decorator object -/

/-- The `signal(sig, SIG_IGN)` calls of a trace, oldest first. -/
def signalCalls : List Event → List Signal
  | [] => []
  | Event.signalIgnore s :: rest => s :: signalCalls rest
  | _ :: rest => signalCalls rest

/-- The `unlink` calls of a trace, oldest first. -/
def unlinkCalls : List Event → List String
  | [] => []
  | Event.unlink f :: rest => f :: unlinkCalls rest
  | _ :: rest => unlinkCalls rest

/-- All events of one decorator object: construction over the heap state `s0`,
the calls it serves, and its destruction. A failed assertion aborts the process,
in which case the destructor does not run. -/
def SampleHeap.lifetime {H : Type} (S : SuperHeap H) (cfg : Config) (s0 : H)
    (calls : List Call) : List Event :=
  let c := SampleHeap.ctor s0
  let r := SampleHeap.run S cfg c.1 calls
  c.2 ++ r.trace ++ (if r.aborted then [] else SampleHeap.dtor r.heap)

/-! ## Theorems -/

/-! ### Facts about the 64-bit addition -/

theorem addAssign64_exact (a : Int) (s : Nat) (ha : 0 ≤ a) (hs : a + (s : Int) < 2 ^ 63) :
    addAssign64 a s = a + (s : Int) := by
  have h64 : (2 : Int) ^ 64 = 18446744073709551616 := by norm_num
  have h63 : (2 : Int) ^ 63 = 9223372036854775808 := by norm_num
  have n64 : (2 : Nat) ^ 64 = 18446744073709551616 := by norm_num
  have n63 : (2 : Nat) ^ 63 = 9223372036854775808 := by norm_num
  rw [h63] at hs
  unfold addAssign64 toLong64 toUnsigned64
  rw [h64, n64, n63]
  split_ifs with hlt <;> omega

theorem addAssign64_wraps_at_bound :
    addAssign64 0 (2 ^ 63) = -(2 ^ 63) ∧ addAssign64 (2 ^ 63 - 1) 1 = -(2 ^ 63) := by
  decide

theorem MallocTimer.registerMalloc_eq_exact (T : Int) (t : MallocTimer) (s : Nat)
    (h0 : 0 ≤ t.mallocOps) (hs : t.mallocOps + (s : Int) < 2 ^ 63) :
    MallocTimer.registerMalloc T t s = MallocTimer.registerMallocExact T t s := by
  simp only [MallocTimer.registerMalloc, MallocTimer.registerMallocExact,
    addAssign64_exact t.mallocOps s h0 hs]

theorem FreeTimer.registerFree_eq_exact (T : Int) (t : FreeTimer) (s : Nat)
    (h0 : 0 ≤ t.freeOps) (hs : t.freeOps + (s : Int) < 2 ^ 63) :
    FreeTimer.registerFree T t s = FreeTimer.registerFreeExact T t s := by
  simp only [FreeTimer.registerFree, FreeTimer.registerFreeExact,
    addAssign64_exact t.freeOps s h0 hs]

theorem FreeTimer.registerFree_eq (T : Int) (t : FreeTimer) (s : Nat) :
    FreeTimer.registerFree T t s
      = ((MallocTimer.registerMalloc T { mallocOps := t.freeOps } s).1,
         { freeOps := (MallocTimer.registerMalloc T { mallocOps := t.freeOps } s).2.mallocOps }) := by
  unfold FreeTimer.registerFree MallocTimer.registerMalloc
  by_cases hc : addAssign64 t.freeOps s ≥ T
  · simp only [if_pos hc]
  · simp only [if_neg hc]

theorem MallocTimer.registerMalloc_one_le (T : Int) (t : MallocTimer) (s : Nat) (hT : 0 < T)
    (hne : (MallocTimer.registerMalloc T t s).1 ≠ 0) :
    1 ≤ (MallocTimer.registerMalloc T t s).1 := by
  unfold MallocTimer.registerMalloc at hne ⊢
  by_cases hc : addAssign64 t.mallocOps s ≥ T
  · simp only [if_pos hc]
    have h1 : (0 : ℚ) < (T : ℚ) := by exact_mod_cast hT
    rw [le_div_iff₀ h1, one_mul]
    exact_mod_cast hc
  · simp only [if_neg hc] at hne
    exact absurd rfl hne

/-! ### Facts about one timer step -/

theorem MallocTimer.registerMallocExact_bounds (T : Int) (t : MallocTimer) (s : Nat)
    (hT : 0 < T) (h0 : 0 ≤ t.mallocOps) :
    0 ≤ (MallocTimer.registerMallocExact T t s).2.mallocOps
      ∧ (MallocTimer.registerMallocExact T t s).2.mallocOps < T := by
  unfold MallocTimer.registerMallocExact
  by_cases h : t.mallocOps + (s : Int) ≥ T
  · simp only [if_pos h]
    exact ⟨le_refl 0, hT⟩
  · simp only [if_neg h]
    exact ⟨by omega, by omega⟩

theorem MallocTimer.registerMallocExact_conserve (T : Int) (t : MallocTimer) (s : Nat)
    (hT : 0 < T) :
    (T : ℚ) * (MallocTimer.registerMallocExact T t s).1
        + ((MallocTimer.registerMallocExact T t s).2.mallocOps : ℚ)
      = (t.mallocOps : ℚ) + (s : ℚ) := by
  have hT0 : (T : ℚ) ≠ 0 := by exact_mod_cast hT.ne.symm
  unfold MallocTimer.registerMallocExact
  by_cases hc : t.mallocOps + (s : Int) ≥ T
  · simp only [if_pos hc]
    rw [mul_div_cancel₀ _ hT0]
    push_cast
    ring
  · simp only [if_neg hc]
    push_cast
    ring

theorem FreeTimer.registerFreeExact_eq (T : Int) (t : FreeTimer) (s : Nat) :
    FreeTimer.registerFreeExact T t s
      = ((MallocTimer.registerMallocExact T { mallocOps := t.freeOps } s).1,
         { freeOps := (MallocTimer.registerMallocExact T { mallocOps := t.freeOps } s).2.mallocOps }) := by
  unfold FreeTimer.registerFreeExact MallocTimer.registerMallocExact
  by_cases hc : t.freeOps + (s : Int) ≥ T
  · simp only [if_pos hc]
  · simp only [if_neg hc]

/-! ### Facts about a sequence of timer steps -/

theorem MallocTimer.feedExact_bounds (T : Int) (hT : 0 < T) (sizes : List Nat) :
    ∀ t : MallocTimer, 0 ≤ t.mallocOps → t.mallocOps < T →
      0 ≤ (MallocTimer.feedExact T t sizes).2.mallocOps
        ∧ (MallocTimer.feedExact T t sizes).2.mallocOps < T := by
  induction sizes with
  | nil => intro t h0 h1; exact ⟨h0, h1⟩
  | cons sz rest ih =>
      intro t h0 _
      have hb := MallocTimer.registerMallocExact_bounds T t sz hT h0
      exact ih _ hb.1 hb.2

theorem MallocTimer.feedExact_conserve (T : Int) (hT : 0 < T) (sizes : List Nat) :
    ∀ t : MallocTimer,
      (T : ℚ) * (MallocTimer.feedExact T t sizes).1.sum
          + ((MallocTimer.feedExact T t sizes).2.mallocOps : ℚ)
        = (t.mallocOps : ℚ) + ((sizes.sum : Nat) : ℚ) := by
  induction sizes with
  | nil => intro t; simp [MallocTimer.feedExact]
  | cons sz rest ih =>
      intro t
      have h1 := MallocTimer.registerMallocExact_conserve T t sz hT
      have h2 := ih (MallocTimer.registerMallocExact T t sz).2
      simp only [MallocTimer.feedExact, List.sum_cons, Nat.cast_add]
      linear_combination h1 + h2

theorem FreeTimer.feedExact_eq (T : Int) (sizes : List Nat) :
    ∀ t : FreeTimer,
      FreeTimer.feedExact T t sizes
        = ((MallocTimer.feedExact T { mallocOps := t.freeOps } sizes).1,
           { freeOps := (MallocTimer.feedExact T { mallocOps := t.freeOps } sizes).2.mallocOps }) := by
  induction sizes with
  | nil => intro t; rfl
  | cons sz rest ih =>
      intro t
      simp only [FreeTimer.feedExact, MallocTimer.feedExact, FreeTimer.registerFreeExact_eq, ih]

theorem MallocTimer.feed_eq_exact (T : Int) (hT : 0 < T) (sizes : List Nat) :
    ∀ t : MallocTimer, 0 ≤ t.mallocOps → MallocTimer.noWrap T t sizes = true →
      MallocTimer.feed T t sizes = MallocTimer.feedExact T t sizes := by
  induction sizes with
  | nil => intro t _ _; rfl
  | cons sz rest ih =>
      intro t h0 hw
      simp only [MallocTimer.noWrap, Bool.and_eq_true, decide_eq_true_eq] at hw
      have he := MallocTimer.registerMalloc_eq_exact T t sz h0 hw.1
      have hb := MallocTimer.registerMallocExact_bounds T t sz hT h0
      rw [← he] at hb
      have hi := ih (MallocTimer.registerMalloc T t sz).2 hb.1 hw.2
      simp only [MallocTimer.feed, MallocTimer.feedExact]
      rw [hi, he]

theorem FreeTimer.feed_eq (T : Int) (sizes : List Nat) :
    ∀ t : FreeTimer,
      FreeTimer.feed T t sizes
        = ((MallocTimer.feed T { mallocOps := t.freeOps } sizes).1,
           { freeOps := (MallocTimer.feed T { mallocOps := t.freeOps } sizes).2.mallocOps }) := by
  induction sizes with
  | nil => intro t; rfl
  | cons sz rest ih =>
      intro t
      simp only [FreeTimer.feed, MallocTimer.feed, FreeTimer.registerFree_eq, ih]

theorem FreeTimer.noWrap_eq (T : Int) (sizes : List Nat) :
    ∀ t : FreeTimer,
      FreeTimer.noWrap T t sizes = MallocTimer.noWrap T { mallocOps := t.freeOps } sizes := by
  induction sizes with
  | nil => intro t; rfl
  | cons sz rest ih =>
      intro t
      simp only [FreeTimer.noWrap, MallocTimer.noWrap, FreeTimer.registerFree_eq, ih]

theorem MallocTimer.feedExact_account (T : Int) (hT : 0 < T) (sizes : List Nat) :
    (T : ℚ) * (MallocTimer.feedExact T MallocTimer.ctor sizes).1.sum
        + ((MallocTimer.feedExact T MallocTimer.ctor sizes).2.mallocOps : ℚ)
      = ((sizes.sum : Nat) : ℚ)
    ∧ 0 ≤ (MallocTimer.feedExact T MallocTimer.ctor sizes).2.mallocOps
    ∧ (MallocTimer.feedExact T MallocTimer.ctor sizes).2.mallocOps < T := by
  have hc := MallocTimer.feedExact_conserve T hT sizes MallocTimer.ctor
  have hb := MallocTimer.feedExact_bounds T hT sizes MallocTimer.ctor (le_refl 0) hT
  have h0 : ((MallocTimer.ctor.mallocOps : Int) : ℚ) = 0 := by simp [MallocTimer.ctor]
  rw [h0, zero_add] at hc
  exact ⟨hc, hb.1, hb.2⟩

theorem MallocTimer.feed_account (T : Int) (hT : 0 < T) (sizes : List Nat)
    (hw : MallocTimer.noWrap T MallocTimer.ctor sizes = true) :
    (T : ℚ) * (MallocTimer.feed T MallocTimer.ctor sizes).1.sum
        + ((MallocTimer.feed T MallocTimer.ctor sizes).2.mallocOps : ℚ)
      = ((sizes.sum : Nat) : ℚ)
    ∧ 0 ≤ (MallocTimer.feed T MallocTimer.ctor sizes).2.mallocOps
    ∧ (MallocTimer.feed T MallocTimer.ctor sizes).2.mallocOps < T := by
  rw [MallocTimer.feed_eq_exact T hT sizes MallocTimer.ctor (le_refl 0) hw]
  exact MallocTimer.feedExact_account T hT sizes

theorem superMallocFreeCalls_append (xs ys : List Event) :
    superMallocFreeCalls (xs ++ ys) = superMallocFreeCalls xs ++ superMallocFreeCalls ys := by
  induction xs with
  | nil => rfl
  | cons x rest ih =>
      cases x <;> simp [superMallocFreeCalls, ih]

/-! ### Facts about one call of the decorator -/

theorem count_ne_zero_of_ge (T a : Int) (r : Nat) (hT : 0 < T) (hge : T ≤ a + (r : Int)) :
    (((a + (r : Int) : Int) : ℚ) / (T : ℚ)) ≠ 0 := by
  have h1 : (0 : ℚ) < (T : ℚ) := by exact_mod_cast hT
  have h2 : (0 : ℚ) < ((a + (r : Int) : Int) : ℚ) := by
    have : (0 : Int) < a + (r : Int) := lt_of_lt_of_le hT hge
    exact_mod_cast this
  exact (div_pos h2 h1).ne.symm

theorem MallocTimer.registerMallocExact_zero_iff (T a : Int) (s : Nat) (hT : 0 < T) (ha0 : 0 ≤ a) :
    (MallocTimer.registerMallocExact T { mallocOps := a } s).1 = 0 ↔ a + (s : Int) < T := by
  unfold MallocTimer.registerMallocExact
  by_cases hc : a + (s : Int) ≥ T
  · simp only [if_pos hc]
    constructor
    · intro h0
      exact absurd h0 (count_ne_zero_of_ge T a s hT hc)
    · intro hlt
      omega
  · simp only [if_neg hc, true_iff]
    omega

theorem MallocTimer.registerMalloc_zero_iff (T : Int) (t : MallocTimer) (s : Nat) (hT : 0 < T)
    (h0 : 0 ≤ t.mallocOps) (hs : t.mallocOps + (s : Int) < 2 ^ 63) :
    (MallocTimer.registerMalloc T t s).1 = 0 ↔ t.mallocOps + (s : Int) < T := by
  rw [MallocTimer.registerMalloc_eq_exact T t s h0 hs]
  exact MallocTimer.registerMallocExact_zero_iff T t.mallocOps s hT h0

theorem asserts_pass_of_bounds (cfg : Config) (sz r : Nat)
    (hA : cfg.NDEBUG = true ∨ (sz ≤ r ∧ (sz < 16 ∨ r ≤ (2 * sz) % 2 ^ 64))) :
    assertPasses cfg (decide (r ≥ sz)) = true
    ∧ assertPasses cfg (decide (sz < 16) || decide (r ≤ (2 * sz) % 2 ^ 64)) = true := by
  rcases hA with hA | hA
  · simp [assertPasses, hA]
  · constructor
    · simp [assertPasses, hA.1]
    · simp only [assertPasses, Bool.or_eq_true, decide_eq_true_eq]
      exact Or.inr hA.2

theorem SampleHeap.malloc_null {H : Type} (S : SuperHeap H) (cfg : Config)
    (h : SampleHeap H) (sz : Nat) (hp : (S.malloc h.super sz).1 = nullptr) :
    SampleHeap.malloc S cfg h sz
      = { ret := some nullptr
          heap := { h with super := (S.malloc h.super sz).2 }
          trace := [Event.superMalloc sz] } := by
  unfold SampleHeap.malloc
  simp only [hp, ne_eq, not_true_eq_false, if_false]

theorem SampleHeap.malloc_abort {H : Type} (S : SuperHeap H) (cfg : Config)
    (h : SampleHeap H) (sz ptr r : Nat) (s1 s2 : H)
    (hm : S.malloc h.super sz = (ptr, s1)) (hg : S.getSize s1 ptr = (r, s2))
    (hp : ptr ≠ nullptr) (hN : cfg.NDEBUG = false)
    (hbad : ¬ (sz ≤ r ∧ (sz < 16 ∨ r ≤ (2 * sz) % 2 ^ 64))) :
    SampleHeap.malloc S cfg h sz
      = { ret := none
          heap := { h with super := s2 }
          trace := [Event.superMalloc sz, Event.superGetSize ptr] } := by
  unfold SampleHeap.malloc
  simp only [hm, hg, hp, ne_eq, not_false_eq_true, if_true, assertPasses, hN, Bool.false_or]
  by_cases h1 : sz ≤ r
  · have h2 : ¬ (sz < 16 ∨ r ≤ (2 * sz) % 2 ^ 64) := fun hc => hbad ⟨h1, hc⟩
    have hb1 : decide (r ≥ sz) = true := decide_eq_true h1
    have hb2 : (decide (sz < 16) || decide (r ≤ (2 * sz) % 2 ^ 64)) = false := by
      rw [Bool.or_eq_false_iff]
      exact ⟨decide_eq_false (fun hc => h2 (Or.inl hc)),
        decide_eq_false (fun hc => h2 (Or.inr hc))⟩
    simp only [hb1, hb2, Bool.true_eq_false, if_false, if_true]
  · have hb1 : decide (r ≥ sz) = false := decide_eq_false h1
    simp only [hb1, if_true]

theorem SampleHeap.malloc_step {H : Type} (S : SuperHeap H) (cfg : Config)
    (h : SampleHeap H) (sz ptr r : Nat) (s1 s2 : H) (c : ℚ) (t : MallocTimer)
    (hm : S.malloc h.super sz = (ptr, s1)) (hg : S.getSize s1 ptr = (r, s2))
    (hp : ptr ≠ nullptr)
    (hA : cfg.NDEBUG = true ∨ (sz ≤ r ∧ (sz < 16 ∨ r ≤ (2 * sz) % 2 ^ 64)))
    (ht : MallocTimer.registerMalloc cfg.MallocSamplingRateBytes h.mallocTimer r = (c, t)) :
    SampleHeap.malloc S cfg h sz
      = { ret := some ptr
          heap := { h with mallocTimer := t, super := s2 }
          trace := [Event.superMalloc sz, Event.superGetSize ptr]
            ++ (if c ≠ 0 then
                  [Event.openFile scalene_malloc_signal_filename,
                   Event.writeFile scalene_malloc_signal_filename c,
                   Event.closeFile scalene_malloc_signal_filename,
                   Event.raise MallocSignal]
                else []) } := by
  have ha := asserts_pass_of_bounds cfg sz r hA
  unfold SampleHeap.malloc
  simp only [hm, hg, hp, ne_eq, not_false_eq_true, if_true, ha.1, ha.2, Bool.true_eq_false,
    if_false, ht]
  by_cases hc : c = 0
  · simp [hc]
  · simp [hc, SampleHeap.writeCount]

theorem SampleHeap.free_step {H : Type} (S : SuperHeap H) (cfg : Config)
    (h : SampleHeap H) (ptr r : Nat) (s1 : H) (c : ℚ) (t : FreeTimer)
    (hp : ptr ≠ nullptr) (hf : S.free h.super ptr = (r, s1))
    (ht : FreeTimer.registerFree cfg.FreeSamplingRateBytes h.freeTimer r = (c, t)) :
    SampleHeap.free S cfg h ptr
      = { ret := some ()
          heap := { h with freeTimer := t, super := s1 }
          trace := [Event.superFree ptr]
            ++ (if c ≠ 0 then
                  [Event.openFile scalene_free_signal_filename,
                   Event.writeFile scalene_free_signal_filename c,
                   Event.closeFile scalene_free_signal_filename,
                   Event.raise FreeSignal]
                else []) } := by
  unfold SampleHeap.free
  simp only [if_neg hp, hf, ht]
  by_cases hc : c = 0
  · simp [hc]
  · simp [hc, SampleHeap.writeCount]

theorem MallocTimer.registerMalloc_quiet (T : Int) (t : MallocTimer) (r : Nat)
    (h0 : 0 ≤ t.mallocOps) (hs : t.mallocOps + (r : Int) < 2 ^ 63)
    (hlt : t.mallocOps + (r : Int) < T) :
    MallocTimer.registerMalloc T t r = (0, { mallocOps := t.mallocOps + (r : Int) }) := by
  rw [MallocTimer.registerMalloc_eq_exact T t r h0 hs]
  unfold MallocTimer.registerMallocExact
  simp only [if_neg (not_le.mpr hlt)]

theorem MallocTimer.registerMalloc_report (T : Int) (t : MallocTimer) (r : Nat)
    (h0 : 0 ≤ t.mallocOps) (hs : t.mallocOps + (r : Int) < 2 ^ 63)
    (hge : T ≤ t.mallocOps + (r : Int)) :
    MallocTimer.registerMalloc T t r
      = (((t.mallocOps + (r : Int) : Int) : ℚ) / (T : ℚ), { mallocOps := 0 }) := by
  have hge2 : t.mallocOps + (r : Int) ≥ T := hge
  rw [MallocTimer.registerMalloc_eq_exact T t r h0 hs]
  unfold MallocTimer.registerMallocExact
  simp only [if_pos hge2]

theorem SampleHeap.malloc_quiet {H : Type} (S : SuperHeap H) (cfg : Config)
    (h : SampleHeap H) (sz ptr r : Nat) (s1 s2 : H)
    (hm : S.malloc h.super sz = (ptr, s1)) (hg : S.getSize s1 ptr = (r, s2))
    (hp : ptr ≠ nullptr)
    (hA : cfg.NDEBUG = true ∨ (sz ≤ r ∧ (sz < 16 ∨ r ≤ (2 * sz) % 2 ^ 64)))
    (h0 : 0 ≤ h.mallocTimer.mallocOps)
    (hs : h.mallocTimer.mallocOps + (r : Int) < 2 ^ 63)
    (hlt : h.mallocTimer.mallocOps + (r : Int) < cfg.MallocSamplingRateBytes) :
    SampleHeap.malloc S cfg h sz
      = { ret := some ptr
          heap := { h with mallocTimer := { mallocOps := h.mallocTimer.mallocOps + (r : Int) },
                           super := s2 }
          trace := [Event.superMalloc sz, Event.superGetSize ptr] } := by
  rw [SampleHeap.malloc_step S cfg h sz ptr r s1 s2 _ _ hm hg hp hA
    (MallocTimer.registerMalloc_quiet cfg.MallocSamplingRateBytes h.mallocTimer r h0 hs hlt)]
  simp

theorem SampleHeap.malloc_report {H : Type} (S : SuperHeap H) (cfg : Config)
    (h : SampleHeap H) (sz ptr r : Nat) (s1 s2 : H)
    (hm : S.malloc h.super sz = (ptr, s1)) (hg : S.getSize s1 ptr = (r, s2))
    (hp : ptr ≠ nullptr)
    (hA : cfg.NDEBUG = true ∨ (sz ≤ r ∧ (sz < 16 ∨ r ≤ (2 * sz) % 2 ^ 64)))
    (hT : 0 < cfg.MallocSamplingRateBytes)
    (h0 : 0 ≤ h.mallocTimer.mallocOps)
    (hs : h.mallocTimer.mallocOps + (r : Int) < 2 ^ 63)
    (hge : cfg.MallocSamplingRateBytes ≤ h.mallocTimer.mallocOps + (r : Int)) :
    SampleHeap.malloc S cfg h sz
      = { ret := some ptr
          heap := { h with mallocTimer := { mallocOps := 0 }, super := s2 }
          trace := [Event.superMalloc sz, Event.superGetSize ptr,
                    Event.openFile scalene_malloc_signal_filename,
                    Event.writeFile scalene_malloc_signal_filename
                      (((h.mallocTimer.mallocOps + (r : Int) : Int) : ℚ)
                        / (cfg.MallocSamplingRateBytes : ℚ)),
                    Event.closeFile scalene_malloc_signal_filename,
                    Event.raise MallocSignal] } := by
  have hne := count_ne_zero_of_ge cfg.MallocSamplingRateBytes h.mallocTimer.mallocOps r hT hge
  rw [SampleHeap.malloc_step S cfg h sz ptr r s1 s2 _ _ hm hg hp hA
    (MallocTimer.registerMalloc_report cfg.MallocSamplingRateBytes h.mallocTimer r h0 hs hge)]
  simp only [ne_eq, hne, not_false_eq_true, if_true, List.cons_append, List.nil_append]

theorem SampleHeap.free_nonnull {H : Type} (S : SuperHeap H) (cfg : Config)
    (h : SampleHeap H) (ptr : Nat) (hp : ptr ≠ nullptr) :
    (SampleHeap.free S cfg h ptr).ret = some ()
    ∧ (SampleHeap.free S cfg h ptr).heap.super = (S.free h.super ptr).2
    ∧ superMallocFreeCalls (SampleHeap.free S cfg h ptr).trace = [Event.superFree ptr] := by
  unfold SampleHeap.free
  simp only [if_neg hp]
  split <;> simp [superMallocFreeCalls, SampleHeap.writeCount]

theorem SampleHeap.malloc_super_view {H : Type} (S : SuperHeap H) (cfg : Config)
    (h : SampleHeap H) (sz : Nat) (hG : ∀ s p, (S.getSize s p).2 = s) :
    (∀ p, (SampleHeap.malloc S cfg h sz).ret = some p → p = (S.malloc h.super sz).1)
    ∧ (SampleHeap.malloc S cfg h sz).heap.super = (S.malloc h.super sz).2
    ∧ superMallocFreeCalls (SampleHeap.malloc S cfg h sz).trace = [Event.superMalloc sz] := by
  by_cases hp : (S.malloc h.super sz).1 = nullptr
  · rw [SampleHeap.malloc_null S cfg h sz hp]
    refine ⟨?_, rfl, rfl⟩
    intro p hret
    simp only [Option.some.injEq] at hret
    rw [hp]
    exact hret.symm
  · unfold SampleHeap.malloc
    simp only [ne_eq, hp, not_false_eq_true, if_true]
    repeat' split
    all_goals simp [superMallocFreeCalls, SampleHeap.writeCount, hG]

theorem SampleHeap.malloc_returns {H : Type} (S : SuperHeap H) (cfg : Config)
    (h : SampleHeap H) (sz : Nat)
    (hA : cfg.NDEBUG = true ∨
      ((S.malloc h.super sz).1 ≠ nullptr →
        sz ≤ (S.getSize (S.malloc h.super sz).2 (S.malloc h.super sz).1).1
        ∧ (sz < 16 ∨ (S.getSize (S.malloc h.super sz).2 (S.malloc h.super sz).1).1
              ≤ (2 * sz) % 2 ^ 64))) :
    (SampleHeap.malloc S cfg h sz).ret = some (S.malloc h.super sz).1 := by
  by_cases hp : (S.malloc h.super sz).1 = nullptr
  · rw [SampleHeap.malloc_null S cfg h sz hp, hp]
  · have hA2 : cfg.NDEBUG = true ∨
        (sz ≤ (S.getSize (S.malloc h.super sz).2 (S.malloc h.super sz).1).1
        ∧ (sz < 16 ∨ (S.getSize (S.malloc h.super sz).2 (S.malloc h.super sz).1).1
              ≤ (2 * sz) % 2 ^ 64)) :=
      hA.imp id (fun f => f hp)
    rw [SampleHeap.malloc_step S cfg h sz _ _ _ _ _ _ rfl rfl hp hA2 rfl]

/-! ### Facts about a sequence of calls of the decorator -/

theorem SampleHeap.run_refines_super {H : Type} (S : SuperHeap H) (cfg : Config)
    (hG : ∀ s p, (S.getSize s p).2 = s) (calls : List Call) :
    (∀ p, Call.free p ∈ calls → p ≠ nullptr) →
    ∀ h : SampleHeap H, (SampleHeap.run S cfg h calls).aborted = false →
      (SampleHeap.run S cfg h calls).rets = (SuperHeap.run S h.super calls).rets
      ∧ superMallocFreeCalls (SampleHeap.run S cfg h calls).trace
          = (SuperHeap.run S h.super calls).trace
      ∧ (SampleHeap.run S cfg h calls).heap.super = (SuperHeap.run S h.super calls).state := by
  induction calls with
  | nil =>
      intro _ h _
      exact ⟨rfl, rfl, rfl⟩
  | cons c rest ih =>
      intro hN h hab
      have hN2 : ∀ p, Call.free p ∈ rest → p ≠ nullptr :=
        fun p hp => hN p (List.mem_cons_of_mem c hp)
      cases c with
      | malloc sz =>
          have hv := SampleHeap.malloc_super_view S cfg h sz hG
          cases hret : (SampleHeap.malloc S cfg h sz).ret with
          | none => simp [SampleHeap.run, hret] at hab
          | some p =>
              have hp := hv.1 p hret
              simp only [SampleHeap.run, hret] at hab ⊢
              have hi := ih hN2 (SampleHeap.malloc S cfg h sz).heap hab
              rw [hv.2.1] at hi
              simp only [SuperHeap.run]
              refine ⟨?_, ?_, hi.2.2⟩
              · rw [hi.1, hp]
              · rw [superMallocFreeCalls_append, hv.2.2, hi.2.1]
                rfl
      | free ptr =>
          have hne : ptr ≠ nullptr := hN ptr (List.mem_cons_self _ _)
          have hv := SampleHeap.free_nonnull S cfg h ptr hne
          simp only [SampleHeap.run, hv.1] at hab ⊢
          have hi := ih hN2 (SampleHeap.free S cfg h ptr).heap hab
          rw [hv.2.1] at hi
          simp only [SuperHeap.run]
          refine ⟨?_, ?_, hi.2.2⟩
          · rw [hi.1]
          · rw [superMallocFreeCalls_append, hv.2.2, hi.2.1]
            rfl

theorem SampleHeap.run_completes {H : Type} (S : SuperHeap H) (cfg : Config)
    (hA : cfg.NDEBUG = true ∨
      ∀ s sz, (S.malloc s sz).1 ≠ nullptr →
        sz ≤ (S.getSize (S.malloc s sz).2 (S.malloc s sz).1).1
        ∧ (sz < 16 ∨ (S.getSize (S.malloc s sz).2 (S.malloc s sz).1).1 ≤ (2 * sz) % 2 ^ 64))
    (calls : List Call) :
    ∀ h : SampleHeap H, (SampleHeap.run S cfg h calls).aborted = false := by
  induction calls with
  | nil => intro h; rfl
  | cons c rest ih =>
      intro h
      cases c with
      | malloc sz =>
          have hr := SampleHeap.malloc_returns S cfg h sz (hA.imp id (fun f => f h.super sz))
          simp only [SampleHeap.run, hr]
          exact ih _
      | free ptr =>
          have hr : (SampleHeap.free S cfg h ptr).ret = some () := by
            unfold SampleHeap.free
            simp only []
            repeat' split
            all_goals rfl
          simp only [SampleHeap.run, hr]
          exact ih _

/-! ### Facts about the lifetime trace -/

theorem signalCalls_append (xs ys : List Event) :
    signalCalls (xs ++ ys) = signalCalls xs ++ signalCalls ys := by
  induction xs with
  | nil => rfl
  | cons x rest ih =>
      cases x <;> simp [signalCalls, ih]

theorem SampleHeap.malloc_no_signal_call {H : Type} (S : SuperHeap H) (cfg : Config)
    (h : SampleHeap H) (sz : Nat) :
    signalCalls (SampleHeap.malloc S cfg h sz).trace = [] := by
  unfold SampleHeap.malloc
  simp only []
  repeat' split
  all_goals simp [signalCalls, SampleHeap.writeCount]

theorem SampleHeap.free_no_signal_call {H : Type} (S : SuperHeap H) (cfg : Config)
    (h : SampleHeap H) (ptr : Nat) :
    signalCalls (SampleHeap.free S cfg h ptr).trace = [] := by
  unfold SampleHeap.free
  simp only []
  repeat' split
  all_goals simp [signalCalls, SampleHeap.writeCount]

theorem SampleHeap.run_no_signal_call {H : Type} (S : SuperHeap H) (cfg : Config)
    (calls : List Call) :
    ∀ h : SampleHeap H, signalCalls (SampleHeap.run S cfg h calls).trace = [] := by
  induction calls with
  | nil => intro h; rfl
  | cons c rest ih =>
      intro h
      cases c with
      | malloc sz =>
          have hm := SampleHeap.malloc_no_signal_call S cfg h sz
          cases hret : (SampleHeap.malloc S cfg h sz).ret with
          | none => simp only [SampleHeap.run, hret]; exact hm
          | some p =>
              simp only [SampleHeap.run, hret]
              rw [signalCalls_append, hm, ih]
              rfl
      | free ptr =>
          have hf := SampleHeap.free_no_signal_call S cfg h ptr
          cases hret : (SampleHeap.free S cfg h ptr).ret with
          | none => simp only [SampleHeap.run, hret]; exact hf
          | some p =>
              simp only [SampleHeap.run, hret]
              rw [signalCalls_append, hf, ih]
              rfl

theorem SampleHeap.lifetime_eq {H : Type} (S : SuperHeap H) (cfg : Config) (s0 : H)
    (calls : List Call) :
    SampleHeap.lifetime S cfg s0 calls
      = Event.signalIgnore MallocSignal :: Event.signalIgnore FreeSignal ::
          ((SampleHeap.run S cfg (SampleHeap.ctor s0).1 calls).trace
            ++ (if (SampleHeap.run S cfg (SampleHeap.ctor s0).1 calls).aborted then []
                else SampleHeap.dtor (SampleHeap.run S cfg (SampleHeap.ctor s0).1 calls).heap)) := by
  simp [SampleHeap.lifetime, SampleHeap.ctor]

/-! ### The claims -/

/-- Claim C1. With a positive threshold `T`, an accumulator `a` in `[0, T)` and
any size `s`, in exact arithmetic without overflow, `registerMalloc` and
`registerFree` return `(a + s) / T` and reset the accumulator to `0` when
`a + s ≥ T`, and otherwise return `0` and leave the accumulator at `a + s`.
This is proved for the timers over unbounded integers and, when `a + s < 2^63`
(no overflow), for the methods of the code over 64-bit integers. -/
theorem C1_register_step (T a : Int) (s : Nat) (hT : 0 < T) (ha0 : 0 ≤ a) (haT : a < T) :
    (a + (s : Int) ≥ T →
        MallocTimer.registerMallocExact T { mallocOps := a } s
          = (((a + (s : Int) : Int) : ℚ) / (T : ℚ), { mallocOps := 0 })
        ∧ FreeTimer.registerFreeExact T { freeOps := a } s
          = (((a + (s : Int) : Int) : ℚ) / (T : ℚ), { freeOps := 0 }))
    ∧ (a + (s : Int) < T →
        MallocTimer.registerMallocExact T { mallocOps := a } s = (0, { mallocOps := a + (s : Int) })
        ∧ FreeTimer.registerFreeExact T { freeOps := a } s = (0, { freeOps := a + (s : Int) }))
    ∧ (a + (s : Int) < 2 ^ 63 →
        (a + (s : Int) ≥ T →
          MallocTimer.registerMalloc T { mallocOps := a } s
            = (((a + (s : Int) : Int) : ℚ) / (T : ℚ), { mallocOps := 0 })
          ∧ FreeTimer.registerFree T { freeOps := a } s
            = (((a + (s : Int) : Int) : ℚ) / (T : ℚ), { freeOps := 0 }))
        ∧ (a + (s : Int) < T →
          MallocTimer.registerMalloc T { mallocOps := a } s
            = (0, { mallocOps := a + (s : Int) })
          ∧ FreeTimer.registerFree T { freeOps := a } s
            = (0, { freeOps := a + (s : Int) }))) := by
  have hge : a + (s : Int) ≥ T →
      MallocTimer.registerMallocExact T { mallocOps := a } s
        = (((a + (s : Int) : Int) : ℚ) / (T : ℚ), { mallocOps := 0 })
      ∧ FreeTimer.registerFreeExact T { freeOps := a } s
        = (((a + (s : Int) : Int) : ℚ) / (T : ℚ), { freeOps := 0 }) := by
    intro h
    simp [MallocTimer.registerMallocExact, FreeTimer.registerFreeExact, h]
  have hlt : a + (s : Int) < T →
      MallocTimer.registerMallocExact T { mallocOps := a } s = (0, { mallocOps := a + (s : Int) })
      ∧ FreeTimer.registerFreeExact T { freeOps := a } s = (0, { freeOps := a + (s : Int) }) := by
    intro h
    have h2 : ¬ (a + (s : Int) ≥ T) := not_le.mpr h
    simp only [MallocTimer.registerMallocExact, FreeTimer.registerFreeExact, if_neg h2, and_self]
  refine ⟨hge, hlt, ?_⟩
  intro hs
  have hm := MallocTimer.registerMalloc_eq_exact T { mallocOps := a } s ha0 hs
  have hf := FreeTimer.registerFree_eq_exact T { freeOps := a } s ha0 hs
  rw [hm, hf]
  exact ⟨hge, hlt⟩

/-- Witness for C1: threshold 1000, accumulator 600, size 500 reports 11/10 and
resets; threshold 1000, accumulator 300, size 300 reports nothing. -/
theorem C1_register_step_witness :
    ((0 : Int) < 1000 ∧ (0 : Int) ≤ 600 ∧ (600 : Int) < 1000 ∧ (600 : Int) + (500 : Nat) ≥ 1000
      ∧ (600 : Int) + (500 : Nat) < 2 ^ 63)
    ∧ MallocTimer.registerMallocExact 1000 { mallocOps := 600 } 500
        = ((((600 : Int) + ((500 : Nat) : Int) : Int) : ℚ) / ((1000 : Int) : ℚ), { mallocOps := 0 })
    ∧ FreeTimer.registerFreeExact 1000 { freeOps := 600 } 500
        = ((((600 : Int) + ((500 : Nat) : Int) : Int) : ℚ) / ((1000 : Int) : ℚ), { freeOps := 0 })
    ∧ (((600 : Int) + ((500 : Nat) : Int) : Int) : ℚ) / ((1000 : Int) : ℚ) = 11 / 10
    ∧ MallocTimer.registerMallocExact 1000 { mallocOps := 300 } 300
        = (0, { mallocOps := (300 : Int) + ((300 : Nat) : Int) })
    ∧ FreeTimer.registerFreeExact 1000 { freeOps := 300 } 300
        = (0, { freeOps := (300 : Int) + ((300 : Nat) : Int) })
    ∧ MallocTimer.registerMalloc 1000 { mallocOps := 600 } 500
        = ((((600 : Int) + ((500 : Nat) : Int) : Int) : ℚ) / ((1000 : Int) : ℚ), { mallocOps := 0 })
    ∧ FreeTimer.registerFree 1000 { freeOps := 300 } 300
        = (0, { freeOps := (300 : Int) + ((300 : Nat) : Int) }) :=
  ⟨by decide,
   ((C1_register_step 1000 600 500 (by decide) (by decide) (by decide)).1 (by decide)).1,
   ((C1_register_step 1000 600 500 (by decide) (by decide) (by decide)).1 (by decide)).2,
   by norm_num,
   ((C1_register_step 1000 300 300 (by decide) (by decide) (by decide)).2.1 (by decide)).1,
   ((C1_register_step 1000 300 300 (by decide) (by decide) (by decide)).2.1 (by decide)).2,
   (((C1_register_step 1000 600 500 (by decide) (by decide) (by decide)).2.2
      (by decide)).1 (by decide)).1,
   (((C1_register_step 1000 300 300 (by decide) (by decide) (by decide)).2.2
      (by decide)).2 (by decide)).2⟩

/-- Counterexample to C9 as stated: with threshold 1000 and sizes 300, 300
nothing is reported, so the reported total 0 differs from the true 600 bytes
by more than the size of any allocation of the sequence. No addition wraps, so
the code and the timer over unbounded integers agree here. -/
theorem C9_counterexample :
    (0 : Int) < 1000
    ∧ ([300, 300] : List Nat) ≠ []
    ∧ (MallocTimer.feedExact 1000 MallocTimer.ctor [300, 300]).1 = [0, 0]
    ∧ (∀ s ∈ ([300, 300] : List Nat),
        ¬ (|((1000 : Int) : ℚ) * (MallocTimer.feedExact 1000 MallocTimer.ctor [300, 300]).1.sum
              - ((([300, 300] : List Nat).sum : Nat) : ℚ)| ≤ (s : ℚ)))
    ∧ MallocTimer.feed 1000 MallocTimer.ctor [300, 300]
        = MallocTimer.feedExact 1000 MallocTimer.ctor [300, 300] := by
  have hf : (MallocTimer.feedExact 1000 MallocTimer.ctor [300, 300]).1 = [0, 0] := by
    simp [MallocTimer.feedExact, MallocTimer.registerMallocExact, MallocTimer.ctor]
  refine ⟨by decide, by decide, hf, ?_,
    MallocTimer.feed_eq_exact 1000 (by decide) [300, 300] MallocTimer.ctor (le_refl 0)
      (by decide)⟩
  intro s hs
  rw [hf]
  simp only [List.mem_cons, List.mem_singleton, List.not_mem_nil, or_false, or_self] at hs
  subst hs
  norm_num

/-- Claim C9, amended. With a positive threshold `T` and a freshly constructed
allocation timer, in exact rational arithmetic, `T` times the sum of the
reported counts never exceeds the true cumulative bytes and falls short of it
by exactly the bytes still in the accumulator, hence by less than `T` (not by
at most one allocation). This is proved for the timer over unbounded integers
and, when no addition wraps, for the method of the code over 64-bit integers. -/
theorem C9_reported_within_threshold (T : Int) (hT : 0 < T) (sizes : List Nat) :
    ((sizes.sum : Nat) : ℚ) - (T : ℚ) * (MallocTimer.feedExact T MallocTimer.ctor sizes).1.sum
        = ((MallocTimer.feedExact T MallocTimer.ctor sizes).2.mallocOps : ℚ)
    ∧ 0 ≤ ((sizes.sum : Nat) : ℚ) - (T : ℚ) * (MallocTimer.feedExact T MallocTimer.ctor sizes).1.sum
    ∧ ((sizes.sum : Nat) : ℚ) - (T : ℚ) * (MallocTimer.feedExact T MallocTimer.ctor sizes).1.sum
        < (T : ℚ)
    ∧ (MallocTimer.noWrap T MallocTimer.ctor sizes = true →
        ((sizes.sum : Nat) : ℚ) - (T : ℚ) * (MallocTimer.feed T MallocTimer.ctor sizes).1.sum
            = ((MallocTimer.feed T MallocTimer.ctor sizes).2.mallocOps : ℚ)
        ∧ 0 ≤ ((sizes.sum : Nat) : ℚ)
            - (T : ℚ) * (MallocTimer.feed T MallocTimer.ctor sizes).1.sum
        ∧ ((sizes.sum : Nat) : ℚ) - (T : ℚ) * (MallocTimer.feed T MallocTimer.ctor sizes).1.sum
            < (T : ℚ)) := by
  have hx := MallocTimer.feedExact_account T hT sizes
  have he : ((sizes.sum : Nat) : ℚ) - (T : ℚ) * (MallocTimer.feedExact T MallocTimer.ctor sizes).1.sum
      = ((MallocTimer.feedExact T MallocTimer.ctor sizes).2.mallocOps : ℚ) := by
    linear_combination -hx.1
  refine ⟨he, ?_, ?_, ?_⟩
  · rw [he]; exact_mod_cast hx.2.1
  · rw [he]; exact_mod_cast hx.2.2
  · intro hw
    have hy := MallocTimer.feed_account T hT sizes hw
    have he2 : ((sizes.sum : Nat) : ℚ) - (T : ℚ) * (MallocTimer.feed T MallocTimer.ctor sizes).1.sum
        = ((MallocTimer.feed T MallocTimer.ctor sizes).2.mallocOps : ℚ) := by
      linear_combination -hy.1
    refine ⟨he2, ?_, ?_⟩
    · rw [he2]; exact_mod_cast hy.2.1
    · rw [he2]; exact_mod_cast hy.2.2

/-- Witness for C9 amended: threshold 1000 and sizes 300, 300, 500. -/
theorem C9_reported_within_threshold_witness :
    ((0 : Int) < 1000 ∧ MallocTimer.noWrap 1000 MallocTimer.ctor [300, 300, 500] = true)
    ∧ ((([300, 300, 500] : List Nat).sum : Nat) : ℚ)
        - ((1000 : Int) : ℚ) * (MallocTimer.feedExact 1000 MallocTimer.ctor [300, 300, 500]).1.sum
        < ((1000 : Int) : ℚ)
    ∧ ((([300, 300, 500] : List Nat).sum : Nat) : ℚ)
        - ((1000 : Int) : ℚ) * (MallocTimer.feed 1000 MallocTimer.ctor [300, 300, 500]).1.sum
        < ((1000 : Int) : ℚ) :=
  ⟨by decide,
   (C9_reported_within_threshold 1000 (by decide) [300, 300, 500]).2.2.1,
   ((C9_reported_within_threshold 1000 (by decide) [300, 300, 500]).2.2.2 (by decide)).2.2⟩

/-- Counterexample to C2 as stated. First: threshold 1000, accumulator 500,
assertions enabled, and a heap that answers a request of 100 bytes with a
non-null block of actual size 1024; `a + r ≥ T`, yet the second assertion fails
and the call ends with no file write and no signal. Second: threshold
`2^63 - 1`, accumulator `2^63 - 2`, and a block of 2 bytes that passes both
assertions; `a + r ≥ T`, yet the 64-bit addition wraps to `-2^63` and nothing
is written or raised. -/
theorem C2_counterexample :
    ((0 : Int) < demoConfig.MallocSamplingRateBytes
      ∧ (0 : Int) ≤ 500 ∧ (500 : Int) < demoConfig.MallocSamplingRateBytes
      ∧ (chunkHeap.malloc bumpInit 100).1 = 4096
      ∧ (chunkHeap.malloc bumpInit 100).1 ≠ nullptr
      ∧ (chunkHeap.getSize (chunkHeap.malloc bumpInit 100).2 4096).1 = 1024
      ∧ (500 : Int) + ((1024 : Nat) : Int) ≥ demoConfig.MallocSamplingRateBytes
      ∧ fileWrites (SampleHeap.malloc chunkHeap demoConfig
          { mallocTimer := { mallocOps := 500 }, freeTimer := FreeTimer.ctor, super := bumpInit }
          100).trace = []
      ∧ raises (SampleHeap.malloc chunkHeap demoConfig
          { mallocTimer := { mallocOps := 500 }, freeTimer := FreeTimer.ctor, super := bumpInit }
          100).trace = []
      ∧ (SampleHeap.malloc chunkHeap demoConfig
          { mallocTimer := { mallocOps := 500 }, freeTimer := FreeTimer.ctor, super := bumpInit }
          100).ret = none)
    ∧ ((0 : Int) < 2 ^ 63 - 1
      ∧ (0 : Int) ≤ 2 ^ 63 - 2 ∧ (2 ^ 63 - 2 : Int) < 2 ^ 63 - 1
      ∧ (exactHeap.malloc bumpInit 2).1 = 4096
      ∧ (exactHeap.malloc bumpInit 2).1 ≠ nullptr
      ∧ (exactHeap.getSize (exactHeap.malloc bumpInit 2).2 4096).1 = 2
      ∧ (2 ^ 63 - 2 : Int) + ((2 : Nat) : Int) ≥ 2 ^ 63 - 1
      ∧ fileWrites (SampleHeap.malloc exactHeap
          { MallocSamplingRateBytes := 2 ^ 63 - 1, FreeSamplingRateBytes := 1000,
            NDEBUG := false }
          { mallocTimer := { mallocOps := 2 ^ 63 - 2 }, freeTimer := FreeTimer.ctor,
            super := bumpInit } 2).trace = []
      ∧ raises (SampleHeap.malloc exactHeap
          { MallocSamplingRateBytes := 2 ^ 63 - 1, FreeSamplingRateBytes := 1000,
            NDEBUG := false }
          { mallocTimer := { mallocOps := 2 ^ 63 - 2 }, freeTimer := FreeTimer.ctor,
            super := bumpInit } 2).trace = []
      ∧ (SampleHeap.malloc exactHeap
          { MallocSamplingRateBytes := 2 ^ 63 - 1, FreeSamplingRateBytes := 1000,
            NDEBUG := false }
          { mallocTimer := { mallocOps := 2 ^ 63 - 2 }, freeTimer := FreeTimer.ctor,
            super := bumpInit } 2).heap.mallocTimer.mallocOps = -(2 ^ 63)) := by
  constructor <;> decide

/-- Claim C2, amended. With a positive threshold `T`, an allocation accumulator
`a` in `[0, T)` and a `malloc` call for which the wrapped heap returns a
non-null block of actual size `r` that passes both assertions (`sz ≤ r`, and
`sz < 16` or `r ≤ 2 * sz` with the product taken in `size_t`, modulo `2^64`),
or in a build with `NDEBUG`, and with `a + r < 2^63` so that the 64-bit
accumulator does not wrap: when `a + r < T` the events of the call are the two
calls into the wrapped heap only (no file write, no signal); when `a + r ≥ T`
they are followed by exactly one notification: open, one write of
`(a + r) / T`, close on the malloc file, then one raise of `MallocSignal`.
Scenario: threshold 1000 and actual sizes 300, 300, 500 give no notification on
calls 1 and 2 (accumulator 300, then 600) and one notification with count 11/10
on call 3, after which the accumulator is 0. -/
theorem C2_malloc_notification :
    (∀ (H : Type) (S : SuperHeap H) (cfg : Config) (h : SampleHeap H)
        (sz ptr r : Nat) (s1 s2 : H),
        0 < cfg.MallocSamplingRateBytes →
        0 ≤ h.mallocTimer.mallocOps →
        h.mallocTimer.mallocOps < cfg.MallocSamplingRateBytes →
        S.malloc h.super sz = (ptr, s1) →
        S.getSize s1 ptr = (r, s2) →
        ptr ≠ nullptr →
        (cfg.NDEBUG = true ∨ (sz ≤ r ∧ (sz < 16 ∨ r ≤ (2 * sz) % 2 ^ 64))) →
        h.mallocTimer.mallocOps + (r : Int) < 2 ^ 63 →
        (h.mallocTimer.mallocOps + (r : Int) < cfg.MallocSamplingRateBytes →
            (SampleHeap.malloc S cfg h sz).trace
                = [Event.superMalloc sz, Event.superGetSize ptr]
            ∧ fileWrites (SampleHeap.malloc S cfg h sz).trace = []
            ∧ raises (SampleHeap.malloc S cfg h sz).trace = []
            ∧ (SampleHeap.malloc S cfg h sz).heap.mallocTimer.mallocOps
                = h.mallocTimer.mallocOps + (r : Int))
        ∧ (h.mallocTimer.mallocOps + (r : Int) ≥ cfg.MallocSamplingRateBytes →
            (SampleHeap.malloc S cfg h sz).trace
                = [Event.superMalloc sz, Event.superGetSize ptr,
                   Event.openFile scalene_malloc_signal_filename,
                   Event.writeFile scalene_malloc_signal_filename
                     (((h.mallocTimer.mallocOps + (r : Int) : Int) : ℚ)
                       / (cfg.MallocSamplingRateBytes : ℚ)),
                   Event.closeFile scalene_malloc_signal_filename,
                   Event.raise MallocSignal]
            ∧ fileWrites (SampleHeap.malloc S cfg h sz).trace
                = [(scalene_malloc_signal_filename,
                    ((h.mallocTimer.mallocOps + (r : Int) : Int) : ℚ)
                      / (cfg.MallocSamplingRateBytes : ℚ))]
            ∧ raises (SampleHeap.malloc S cfg h sz).trace = [MallocSignal]
            ∧ (SampleHeap.malloc S cfg h sz).heap.mallocTimer.mallocOps = 0))
    ∧ (fileWrites (SampleHeap.run exactHeap demoConfig (SampleHeap.ctor bumpInit).1
          [Call.malloc 300]).trace = []
      ∧ raises (SampleHeap.run exactHeap demoConfig (SampleHeap.ctor bumpInit).1
          [Call.malloc 300]).trace = []
      ∧ (SampleHeap.run exactHeap demoConfig (SampleHeap.ctor bumpInit).1
          [Call.malloc 300]).heap.mallocTimer.mallocOps = 300
      ∧ fileWrites (SampleHeap.run exactHeap demoConfig (SampleHeap.ctor bumpInit).1
          [Call.malloc 300, Call.malloc 300]).trace = []
      ∧ raises (SampleHeap.run exactHeap demoConfig (SampleHeap.ctor bumpInit).1
          [Call.malloc 300, Call.malloc 300]).trace = []
      ∧ (SampleHeap.run exactHeap demoConfig (SampleHeap.ctor bumpInit).1
          [Call.malloc 300, Call.malloc 300]).heap.mallocTimer.mallocOps = 600
      ∧ fileWrites (SampleHeap.run exactHeap demoConfig (SampleHeap.ctor bumpInit).1
          [Call.malloc 300, Call.malloc 300, Call.malloc 500]).trace
          = [(scalene_malloc_signal_filename, 11 / 10)]
      ∧ raises (SampleHeap.run exactHeap demoConfig (SampleHeap.ctor bumpInit).1
          [Call.malloc 300, Call.malloc 300, Call.malloc 500]).trace = [MallocSignal]
      ∧ (SampleHeap.run exactHeap demoConfig (SampleHeap.ctor bumpInit).1
          [Call.malloc 300, Call.malloc 300, Call.malloc 500]).heap.mallocTimer.mallocOps = 0) := by
  refine ⟨?_, ?_⟩
  · intro H S cfg h sz ptr r s1 s2 hT h0 _ hm hg hp hA hs
    constructor
    · intro hlt
      rw [SampleHeap.malloc_quiet S cfg h sz ptr r s1 s2 hm hg hp hA h0 hs hlt]
      simp [fileWrites, raises]
    · intro hge
      rw [SampleHeap.malloc_report S cfg h sz ptr r s1 s2 hm hg hp hA hT h0 hs hge]
      simp [fileWrites, raises]
  · have ha1 : addAssign64 0 300 = 300 := by decide
    have ha2 : addAssign64 300 300 = 600 := by decide
    have ha3 : addAssign64 600 500 = 1100 := by decide
    refine ⟨by decide, by decide, by decide, by decide, by decide, by decide, ?_, ?_, ?_⟩
    · simp [SampleHeap.run, SampleHeap.malloc, SampleHeap.ctor, exactHeap, bumpHeap, bumpInit,
        demoConfig, assertPasses, MallocTimer.registerMalloc, MallocTimer.ctor, nullptr,
        SampleHeap.writeCount, fileWrites, List.lookup, ha1, ha2, ha3]
      norm_num
    · simp [SampleHeap.run, SampleHeap.malloc, SampleHeap.ctor, exactHeap, bumpHeap, bumpInit,
        demoConfig, assertPasses, MallocTimer.registerMalloc, MallocTimer.ctor, nullptr,
        SampleHeap.writeCount, raises, List.lookup, ha1, ha2, ha3]
    · simp [SampleHeap.run, SampleHeap.malloc, SampleHeap.ctor, exactHeap, bumpHeap, bumpInit,
        demoConfig, assertPasses, MallocTimer.registerMalloc, MallocTimer.ctor, nullptr,
        SampleHeap.writeCount, List.lookup, ha1, ha2, ha3]

/-- Witness for C2 amended: threshold 1000, accumulator 600, and a request of
500 bytes served by a block of actual size 500. -/
theorem C2_malloc_notification_witness :
    ((0 : Int) < demoConfig.MallocSamplingRateBytes
      ∧ exactHeap.malloc bumpInit 500 = (4096, { next := 4596, blocks := [(4096, 500)] })
      ∧ exactHeap.getSize { next := 4596, blocks := [(4096, 500)] } 4096
          = (500, { next := 4596, blocks := [(4096, 500)] })
      ∧ (600 : Int) + ((500 : Nat) : Int) < 2 ^ 63
      ∧ (600 : Int) + ((500 : Nat) : Int) ≥ demoConfig.MallocSamplingRateBytes)
    ∧ (fileWrites (SampleHeap.malloc exactHeap demoConfig
          { mallocTimer := { mallocOps := 600 }, freeTimer := FreeTimer.ctor, super := bumpInit }
          500).trace
          = [(scalene_malloc_signal_filename,
              (((600 : Int) + ((500 : Nat) : Int) : Int) : ℚ)
                / (demoConfig.MallocSamplingRateBytes : ℚ))]
      ∧ raises (SampleHeap.malloc exactHeap demoConfig
          { mallocTimer := { mallocOps := 600 }, freeTimer := FreeTimer.ctor, super := bumpInit }
          500).trace = [MallocSignal]
      ∧ (SampleHeap.malloc exactHeap demoConfig
          { mallocTimer := { mallocOps := 600 }, freeTimer := FreeTimer.ctor, super := bumpInit }
          500).heap.mallocTimer.mallocOps = 0) := by
  have hmain := (C2_malloc_notification.1 BumpState exactHeap demoConfig
      { mallocTimer := { mallocOps := 600 }, freeTimer := FreeTimer.ctor, super := bumpInit }
      500 4096 500 { next := 4596, blocks := [(4096, 500)] }
      { next := 4596, blocks := [(4096, 500)] }
      (by decide) (by decide) (by decide) (by decide) (by decide) (by decide)
      (Or.inr (by decide)) (by decide)).2 (by decide)
  exact ⟨by decide, hmain.2⟩

/-- Claim C5. For every requested size and every decorator state, if the wrapped
heap returns null then `SampleHeap::malloc` returns null, the only event is the
call of the wrapped `malloc` (so `getSize` is not called, nothing is written and
no signal is raised), and both timer accumulators are unchanged. -/
theorem C5_malloc_null_passthrough {H : Type} (S : SuperHeap H) (cfg : Config)
    (h : SampleHeap H) (sz : Nat) (hnull : (S.malloc h.super sz).1 = nullptr) :
    (SampleHeap.malloc S cfg h sz).ret = some nullptr
    ∧ (SampleHeap.malloc S cfg h sz).trace = [Event.superMalloc sz]
    ∧ superGetSizeCalls (SampleHeap.malloc S cfg h sz).trace = []
    ∧ (SampleHeap.malloc S cfg h sz).heap.mallocTimer = h.mallocTimer
    ∧ (SampleHeap.malloc S cfg h sz).heap.freeTimer = h.freeTimer
    ∧ fileWrites (SampleHeap.malloc S cfg h sz).trace = []
    ∧ raises (SampleHeap.malloc S cfg h sz).trace = [] := by
  rw [SampleHeap.malloc_null S cfg h sz hnull]
  simp [superGetSizeCalls, fileWrites, raises]

/-- Witness for C5: the example heap has no room for 2000000 bytes. -/
theorem C5_malloc_null_passthrough_witness :
    (exactHeap.malloc bumpInit 2000000).1 = nullptr
    ∧ (SampleHeap.malloc exactHeap demoConfig
        { mallocTimer := { mallocOps := 900 }, freeTimer := { freeOps := 900 }, super := bumpInit }
        2000000).ret = some nullptr
    ∧ (SampleHeap.malloc exactHeap demoConfig
        { mallocTimer := { mallocOps := 900 }, freeTimer := { freeOps := 900 }, super := bumpInit }
        2000000).trace = [Event.superMalloc 2000000] :=
  ⟨by decide,
   (C5_malloc_null_passthrough exactHeap demoConfig
      { mallocTimer := { mallocOps := 900 }, freeTimer := { freeOps := 900 }, super := bumpInit }
      2000000 (by decide)).1,
   (C5_malloc_null_passthrough exactHeap demoConfig
      { mallocTimer := { mallocOps := 900 }, freeTimer := { freeOps := 900 }, super := bumpInit }
      2000000 (by decide)).2.1⟩

/-- Claim C6. For every decorator state, `SampleHeap::free(nullptr)` does
nothing: it has no event at all (the wrapped `free` is not called, nothing is
written, no signal is raised) and it leaves the whole object, both timer
accumulators included, unchanged. -/
theorem C6_free_null_noop {H : Type} (S : SuperHeap H) (cfg : Config) (h : SampleHeap H) :
    (SampleHeap.free S cfg h nullptr).trace = []
    ∧ superMallocFreeCalls (SampleHeap.free S cfg h nullptr).trace = []
    ∧ fileWrites (SampleHeap.free S cfg h nullptr).trace = []
    ∧ raises (SampleHeap.free S cfg h nullptr).trace = []
    ∧ (SampleHeap.free S cfg h nullptr).heap = h
    ∧ (SampleHeap.free S cfg h nullptr).heap.mallocTimer = h.mallocTimer
    ∧ (SampleHeap.free S cfg h nullptr).heap.freeTimer = h.freeTimer
    ∧ (SampleHeap.free S cfg h nullptr).ret = some () := by
  simp [SampleHeap.free, superMallocFreeCalls, fileWrites, raises]

/-- Claim C7. For every decorator state and every call, `SampleHeap::malloc`
leaves the deallocation timer unchanged and `SampleHeap::free` leaves the
allocation timer unchanged, whether or not the call crosses its threshold. -/
theorem C7_timers_independent {H : Type} (S : SuperHeap H) (cfg : Config)
    (h : SampleHeap H) (sz ptr : Nat) :
    (SampleHeap.malloc S cfg h sz).heap.freeTimer = h.freeTimer
    ∧ (SampleHeap.free S cfg h ptr).heap.mallocTimer = h.mallocTimer := by
  constructor
  · unfold SampleHeap.malloc
    simp only []
    repeat' split
    all_goals rfl
  · unfold SampleHeap.free
    simp only []
    repeat' split
    all_goals rfl

/-- Counterexample to C4 as stated: with assertions enabled, a heap whose
`getSize` does not change its state answers a request of 32 bytes with a block
of 1024 bytes. Called directly it returns the pointer 4096; through the
decorator the second assertion fails and the call never returns a pointer. -/
theorem C4_counterexample :
    (∀ (s : BumpState) (p : Nat), (chunkHeap.getSize s p).2 = s)
    ∧ (∀ p, Call.free p ∈ [Call.malloc 32] → p ≠ nullptr)
    ∧ (chunkHeap.malloc bumpInit 32).1 = 4096
    ∧ (SuperHeap.run chunkHeap bumpInit [Call.malloc 32]).rets = [some 4096]
    ∧ (SampleHeap.malloc chunkHeap demoConfig (SampleHeap.ctor bumpInit).1 32).ret = none
    ∧ (SampleHeap.run chunkHeap demoConfig (SampleHeap.ctor bumpInit).1 [Call.malloc 32]).rets = []
    ∧ (SampleHeap.run chunkHeap demoConfig (SampleHeap.ctor bumpInit).1 [Call.malloc 32]).rets
        ≠ (SuperHeap.run chunkHeap bumpInit [Call.malloc 32]).rets := by
  refine ⟨fun _ _ => rfl, ?_, by decide, by decide, by decide, by decide, by decide⟩
  intro p hp
  simp at hp

/-- Claim C4, amended. For every wrapped heap whose `getSize` does not change
the heap state and every sequence of `malloc(sz)` / `free(ptr)` calls with
non-null `ptr` during which no assertion of `SampleHeap::malloc` fails, the
decorator returns exactly the pointers the wrapped `malloc` returned, the
wrapped heap receives the same `malloc` and `free` calls with the same
arguments in the same order, and it ends in the same state, as if it had been
called directly. No assertion fails when the build defines `NDEBUG` or when
every non-null block the heap returns for `sz` bytes has an actual size `r`
with `sz ≤ r` and (`sz < 16` or `r ≤ 2 * sz`, the product being taken in
`size_t`, that is modulo `2^64`). -/
theorem C4_decorator_transparent {H : Type} (S : SuperHeap H) (cfg : Config)
    (calls : List Call) (h : SampleHeap H)
    (hG : ∀ s p, (S.getSize s p).2 = s)
    (hN : ∀ p, Call.free p ∈ calls → p ≠ nullptr) :
    ((SampleHeap.run S cfg h calls).aborted = false →
        (SampleHeap.run S cfg h calls).rets = (SuperHeap.run S h.super calls).rets
        ∧ superMallocFreeCalls (SampleHeap.run S cfg h calls).trace
            = (SuperHeap.run S h.super calls).trace
        ∧ (SampleHeap.run S cfg h calls).heap.super = (SuperHeap.run S h.super calls).state)
    ∧ ((cfg.NDEBUG = true ∨
          ∀ s sz, (S.malloc s sz).1 ≠ nullptr →
            sz ≤ (S.getSize (S.malloc s sz).2 (S.malloc s sz).1).1
            ∧ (sz < 16 ∨ (S.getSize (S.malloc s sz).2 (S.malloc s sz).1).1 ≤ (2 * sz) % 2 ^ 64)) →
        (SampleHeap.run S cfg h calls).aborted = false) :=
  ⟨SampleHeap.run_refines_super S cfg hG calls hN h,
   fun hA => SampleHeap.run_completes S cfg hA calls h⟩

/-- Witness for C4 amended: two allocations, the second crossing the threshold,
then the release of the first block, on the example heap with exact sizes. -/
theorem C4_decorator_transparent_witness :
    ((∀ (s : BumpState) (p : Nat), (exactHeap.getSize s p).2 = s)
      ∧ (∀ p, Call.free p ∈ [Call.malloc 300, Call.malloc 800, Call.free 4096] → p ≠ nullptr)
      ∧ (SampleHeap.run exactHeap demoConfig (SampleHeap.ctor bumpInit).1
          [Call.malloc 300, Call.malloc 800, Call.free 4096]).aborted = false)
    ∧ ((SampleHeap.run exactHeap demoConfig (SampleHeap.ctor bumpInit).1
          [Call.malloc 300, Call.malloc 800, Call.free 4096]).rets
          = (SuperHeap.run exactHeap (SampleHeap.ctor bumpInit).1.super
              [Call.malloc 300, Call.malloc 800, Call.free 4096]).rets
      ∧ superMallocFreeCalls (SampleHeap.run exactHeap demoConfig (SampleHeap.ctor bumpInit).1
          [Call.malloc 300, Call.malloc 800, Call.free 4096]).trace
          = (SuperHeap.run exactHeap (SampleHeap.ctor bumpInit).1.super
              [Call.malloc 300, Call.malloc 800, Call.free 4096]).trace
      ∧ (SampleHeap.run exactHeap demoConfig (SampleHeap.ctor bumpInit).1
          [Call.malloc 300, Call.malloc 800, Call.free 4096]).heap.super
          = (SuperHeap.run exactHeap (SampleHeap.ctor bumpInit).1.super
              [Call.malloc 300, Call.malloc 800, Call.free 4096]).state)
    ∧ (SuperHeap.run exactHeap (SampleHeap.ctor bumpInit).1.super
          [Call.malloc 300, Call.malloc 800, Call.free 4096]).rets
        = [some 4096, some 4396, none] :=
  have hab : (SampleHeap.run exactHeap demoConfig (SampleHeap.ctor bumpInit).1
      [Call.malloc 300, Call.malloc 800, Call.free 4096]).aborted = false := by
    have ha1 : addAssign64 0 300 = 300 := by decide
    have ha2 : addAssign64 300 800 = 1100 := by decide
    simp [SampleHeap.run, SampleHeap.malloc, SampleHeap.free, SampleHeap.ctor, exactHeap,
      bumpHeap, bumpInit, demoConfig, assertPasses, MallocTimer.registerMalloc,
      FreeTimer.registerFree, MallocTimer.ctor, FreeTimer.ctor, nullptr, List.lookup,
      ha1, ha2]
  have hfree : ∀ p, Call.free p ∈ [Call.malloc 300, Call.malloc 800, Call.free 4096]
      → p ≠ nullptr := by
    intro p hp
    simp at hp
    rw [hp]
    decide
  ⟨⟨fun _ _ => rfl, hfree, hab⟩,
   (C4_decorator_transparent exactHeap demoConfig
      [Call.malloc 300, Call.malloc 800, Call.free 4096] (SampleHeap.ctor bumpInit).1
      (fun _ _ => rfl) hfree).1 hab,
   by decide⟩

/-- Counterexample to C10 as stated. First: threshold 1000, assertions enabled,
a freshly constructed decorator, and a request of 16 bytes answered by a block
of actual size 1024 (at least the threshold); the second assertion fails and
there is no report at all. Second: a request of 8 bytes answered by a block of
`2^63` bytes passes both assertions, but the 64-bit accumulator wraps to
`-2^63` and again nothing is reported. -/
theorem C10_counterexample :
    ((0 : Int) < demoConfig.MallocSamplingRateBytes
      ∧ (chunkHeap.malloc bumpInit 16).1 = 4096
      ∧ (chunkHeap.malloc bumpInit 16).1 ≠ nullptr
      ∧ (chunkHeap.getSize (chunkHeap.malloc bumpInit 16).2 4096).1 = 1024
      ∧ ((1024 : Nat) : Int) ≥ demoConfig.MallocSamplingRateBytes
      ∧ (SampleHeap.ctor bumpInit).1.mallocTimer.mallocOps = 0
      ∧ fileWrites (SampleHeap.malloc chunkHeap demoConfig (SampleHeap.ctor bumpInit).1 16).trace
          = []
      ∧ raises (SampleHeap.malloc chunkHeap demoConfig (SampleHeap.ctor bumpInit).1 16).trace = []
      ∧ (SampleHeap.malloc chunkHeap demoConfig (SampleHeap.ctor bumpInit).1 16).trace
          = [Event.superMalloc 16, Event.superGetSize 4096])
    ∧ (((bumpHeap (fun _ => 2 ^ 63) (2 ^ 64)).malloc bumpInit 8).1 = 4096
      ∧ ((bumpHeap (fun _ => 2 ^ 63) (2 ^ 64)).getSize
          ((bumpHeap (fun _ => 2 ^ 63) (2 ^ 64)).malloc bumpInit 8).2 4096).1 = 2 ^ 63
      ∧ (((2 ^ 63 : Nat) : Nat) : Int) ≥ demoConfig.MallocSamplingRateBytes
      ∧ (SampleHeap.malloc (bumpHeap (fun _ => 2 ^ 63) (2 ^ 64)) demoConfig
          (SampleHeap.ctor bumpInit).1 8).ret = some 4096
      ∧ fileWrites (SampleHeap.malloc (bumpHeap (fun _ => 2 ^ 63) (2 ^ 64)) demoConfig
          (SampleHeap.ctor bumpInit).1 8).trace = []
      ∧ raises (SampleHeap.malloc (bumpHeap (fun _ => 2 ^ 63) (2 ^ 64)) demoConfig
          (SampleHeap.ctor bumpInit).1 8).trace = []
      ∧ (SampleHeap.malloc (bumpHeap (fun _ => 2 ^ 63) (2 ^ 64)) demoConfig
          (SampleHeap.ctor bumpInit).1 8).heap.mallocTimer.mallocOps = -(2 ^ 63)) := by
  constructor <;> decide

/-- Claim C10, amended. With a positive threshold `T`, a freshly constructed
decorator, and a `malloc` call whose block has actual size `r` with
`T ≤ r < 2^63` (so that the 64-bit accumulator does not wrap) and passes both
assertions (`sz ≤ r`, and `sz < 16` or `r ≤ 2 * sz` with the product taken in
`size_t`), or in a build with `NDEBUG`, the call returns the pointer and
produces exactly one report: one write of `r / T` to the malloc file followed
by one raise of `MallocSignal`; the accumulator is left at 0. -/
theorem C10_single_large_block {H : Type} (S : SuperHeap H) (cfg : Config) (s0 : H)
    (sz ptr r : Nat) (s1 s2 : H)
    (hT : 0 < cfg.MallocSamplingRateBytes)
    (hm : S.malloc s0 sz = (ptr, s1)) (hg : S.getSize s1 ptr = (r, s2))
    (hp : ptr ≠ nullptr)
    (hr : cfg.MallocSamplingRateBytes ≤ (r : Int))
    (hs : (r : Int) < 2 ^ 63)
    (hA : cfg.NDEBUG = true ∨ (sz ≤ r ∧ (sz < 16 ∨ r ≤ (2 * sz) % 2 ^ 64))) :
    (SampleHeap.malloc S cfg (SampleHeap.ctor s0).1 sz).ret = some ptr
    ∧ (SampleHeap.malloc S cfg (SampleHeap.ctor s0).1 sz).trace
        = [Event.superMalloc sz, Event.superGetSize ptr,
           Event.openFile scalene_malloc_signal_filename,
           Event.writeFile scalene_malloc_signal_filename
             ((r : ℚ) / (cfg.MallocSamplingRateBytes : ℚ)),
           Event.closeFile scalene_malloc_signal_filename,
           Event.raise MallocSignal]
    ∧ fileWrites (SampleHeap.malloc S cfg (SampleHeap.ctor s0).1 sz).trace
        = [(scalene_malloc_signal_filename, (r : ℚ) / (cfg.MallocSamplingRateBytes : ℚ))]
    ∧ raises (SampleHeap.malloc S cfg (SampleHeap.ctor s0).1 sz).trace = [MallocSignal]
    ∧ (SampleHeap.malloc S cfg (SampleHeap.ctor s0).1 sz).heap.mallocTimer.mallocOps = 0 := by
  have h0 : (0 : Int) ≤ (SampleHeap.ctor s0).1.mallocTimer.mallocOps := le_refl 0
  have hs2 : (SampleHeap.ctor s0).1.mallocTimer.mallocOps + (r : Int) < 2 ^ 63 := by
    simpa [SampleHeap.ctor, MallocTimer.ctor] using hs
  have hge : cfg.MallocSamplingRateBytes
      ≤ (SampleHeap.ctor s0).1.mallocTimer.mallocOps + (r : Int) := by
    simpa [SampleHeap.ctor, MallocTimer.ctor] using hr
  rw [SampleHeap.malloc_report S cfg (SampleHeap.ctor s0).1 sz ptr r s1 s2 hm hg hp hA hT
    h0 hs2 hge]
  simp [fileWrites, raises, SampleHeap.ctor, MallocTimer.ctor]

/-- Witness for C10 amended: threshold 1000 and one block of 2500 bytes give one
report of 2500 / 1000 and accumulator 0, although 2500 leaves remainder 500. -/
theorem C10_single_large_block_witness :
    ((0 : Int) < demoConfig.MallocSamplingRateBytes
      ∧ exactHeap.malloc bumpInit 2500 = (4096, { next := 6596, blocks := [(4096, 2500)] })
      ∧ demoConfig.MallocSamplingRateBytes ≤ ((2500 : Nat) : Int)
      ∧ ((2500 : Nat) : Int) < 2 ^ 63
      ∧ (2500 : Int) % 1000 = 500)
    ∧ fileWrites (SampleHeap.malloc exactHeap demoConfig (SampleHeap.ctor bumpInit).1 2500).trace
        = [(scalene_malloc_signal_filename,
            ((2500 : Nat) : ℚ) / (demoConfig.MallocSamplingRateBytes : ℚ))]
    ∧ (SampleHeap.malloc exactHeap demoConfig
        (SampleHeap.ctor bumpInit).1 2500).heap.mallocTimer.mallocOps = 0 := by
  have hmain := C10_single_large_block exactHeap demoConfig bumpInit 2500 4096 2500
      { next := 6596, blocks := [(4096, 2500)] } { next := 6596, blocks := [(4096, 2500)] }
      (by decide) (by decide) (by decide) (by decide) (by decide) (by decide)
      (Or.inr (by decide))
  exact ⟨by decide, hmain.2.2.1, hmain.2.2.2.2⟩

/-- Counterexample to C11 as stated: with threshold 1000 and accumulator 0 the
size `2^63` reaches the threshold, yet the 64-bit addition wraps to `-2^63` and
`registerMalloc` returns 0; likewise `registerFree` returns 0 for the size
`2^64 - 1`, which leaves the accumulator at `-1`. -/
theorem C11_counterexample :
    ((0 : Int) < 1000 ∧ (0 : Int) ≤ 0 ∧ (0 : Int) < 1000)
    ∧ (MallocTimer.registerMalloc 1000 { mallocOps := 0 } (2 ^ 63)).1 = 0
    ∧ ¬ ((0 : Int) + ((2 ^ 63 : Nat) : Int) < 1000)
    ∧ (MallocTimer.registerMalloc 1000 { mallocOps := 0 } (2 ^ 63)).2.mallocOps = -(2 ^ 63)
    ∧ (FreeTimer.registerFree 1000 { freeOps := 0 } (2 ^ 64 - 1)).1 = 0
    ∧ ¬ ((0 : Int) + ((2 ^ 64 - 1 : Nat) : Int) < 1000)
    ∧ (FreeTimer.registerFree 1000 { freeOps := 0 } (2 ^ 64 - 1)).2.freeOps = -1 := by
  have h1 : addAssign64 0 (2 ^ 63) = -(2 ^ 63) := by decide
  have h2 : addAssign64 0 (2 ^ 64 - 1) = -1 := by decide
  have h3 : ¬ ((1000 : Int) ≤ -(2 ^ 63)) := by decide
  have h4 : ¬ ((1000 : Int) ≤ -1) := by decide
  refine ⟨by decide, ?_, by decide, by decide, ?_, by decide, by decide⟩
  · simp only [MallocTimer.registerMalloc, h1, ge_iff_le, if_neg h3]
  · simp only [FreeTimer.registerFree, h2, ge_iff_le, if_neg h4]

/-- Claim C11, amended. With a positive threshold `T` and an accumulator `a` in
`[0, T)`, every non-zero value returned by `registerMalloc` or `registerFree` is
at least 1, and for every size `s` with `a + s < 2^63` (the 64-bit accumulator
does not wrap) the return value is `0` if and only if `a + s < T`. Hence, under
the same bound, the test of the decorator on the returned count fires a
notification exactly when the threshold was reached, in `malloc` (for a call
that reaches the timer) and in `free` (for a non-null pointer). -/
theorem C11_zero_sentinel :
    (∀ (T a : Int) (s : Nat), 0 < T → 0 ≤ a → a < T →
        ((MallocTimer.registerMalloc T { mallocOps := a } s).1 ≠ 0 →
            1 ≤ (MallocTimer.registerMalloc T { mallocOps := a } s).1)
        ∧ ((FreeTimer.registerFree T { freeOps := a } s).1 ≠ 0 →
            1 ≤ (FreeTimer.registerFree T { freeOps := a } s).1)
        ∧ (a + (s : Int) < 2 ^ 63 →
            ((MallocTimer.registerMalloc T { mallocOps := a } s).1 = 0 ↔ a + (s : Int) < T)
            ∧ ((FreeTimer.registerFree T { freeOps := a } s).1 = 0 ↔ a + (s : Int) < T)))
    ∧ (∀ (H : Type) (S : SuperHeap H) (cfg : Config) (h : SampleHeap H)
        (sz ptr r : Nat) (s1 s2 : H),
        0 < cfg.MallocSamplingRateBytes →
        0 ≤ h.mallocTimer.mallocOps →
        h.mallocTimer.mallocOps < cfg.MallocSamplingRateBytes →
        S.malloc h.super sz = (ptr, s1) →
        S.getSize s1 ptr = (r, s2) →
        ptr ≠ nullptr →
        (cfg.NDEBUG = true ∨ (sz ≤ r ∧ (sz < 16 ∨ r ≤ (2 * sz) % 2 ^ 64))) →
        h.mallocTimer.mallocOps + (r : Int) < 2 ^ 63 →
        (raises (SampleHeap.malloc S cfg h sz).trace = [MallocSignal]
            ↔ cfg.MallocSamplingRateBytes ≤ h.mallocTimer.mallocOps + (r : Int))
        ∧ (fileWrites (SampleHeap.malloc S cfg h sz).trace ≠ []
            ↔ cfg.MallocSamplingRateBytes ≤ h.mallocTimer.mallocOps + (r : Int))
        ∧ (raises (SampleHeap.malloc S cfg h sz).trace = []
            ↔ h.mallocTimer.mallocOps + (r : Int) < cfg.MallocSamplingRateBytes))
    ∧ (∀ (H : Type) (S : SuperHeap H) (cfg : Config) (h : SampleHeap H)
        (ptr r : Nat) (s1 : H),
        0 < cfg.FreeSamplingRateBytes →
        0 ≤ h.freeTimer.freeOps →
        h.freeTimer.freeOps < cfg.FreeSamplingRateBytes →
        ptr ≠ nullptr →
        S.free h.super ptr = (r, s1) →
        h.freeTimer.freeOps + (r : Int) < 2 ^ 63 →
        (raises (SampleHeap.free S cfg h ptr).trace = [FreeSignal]
            ↔ cfg.FreeSamplingRateBytes ≤ h.freeTimer.freeOps + (r : Int))
        ∧ (fileWrites (SampleHeap.free S cfg h ptr).trace ≠ []
            ↔ cfg.FreeSamplingRateBytes ≤ h.freeTimer.freeOps + (r : Int))
        ∧ (raises (SampleHeap.free S cfg h ptr).trace = []
            ↔ h.freeTimer.freeOps + (r : Int) < cfg.FreeSamplingRateBytes)) := by
  refine ⟨?_, ?_, ?_⟩
  · intro T a s hT ha0 _
    have ho := MallocTimer.registerMalloc_one_le T { mallocOps := a } s hT
    refine ⟨ho, ?_, ?_⟩
    · rw [FreeTimer.registerFree_eq]
      exact ho
    · intro hs
      have hz := MallocTimer.registerMalloc_zero_iff T { mallocOps := a } s hT ha0 hs
      refine ⟨hz, ?_⟩
      rw [FreeTimer.registerFree_eq]
      exact hz
  · intro H S cfg h sz ptr r s1 s2 hT ha0 _ hm hg hp hA hs
    have hz := MallocTimer.registerMalloc_zero_iff cfg.MallocSamplingRateBytes
      h.mallocTimer r hT ha0 hs
    rcases hres : MallocTimer.registerMalloc cfg.MallocSamplingRateBytes h.mallocTimer r
      with ⟨c, t⟩
    have hz2 : c = 0 ↔ h.mallocTimer.mallocOps + (r : Int) < cfg.MallocSamplingRateBytes := by
      rw [hres] at hz
      exact hz
    rw [SampleHeap.malloc_step S cfg h sz ptr r s1 s2 c t hm hg hp hA hres]
    by_cases hc : c = 0
    · have hlt := hz2.mp hc
      have hnle : ¬ (cfg.MallocSamplingRateBytes ≤ h.mallocTimer.mallocOps + (r : Int)) :=
        not_le.mpr hlt
      simp [hc, fileWrites, raises, hlt, hnle]
    · have hge : cfg.MallocSamplingRateBytes ≤ h.mallocTimer.mallocOps + (r : Int) := by
        by_contra hn
        exact hc (hz2.mpr (not_le.mp hn))
      have hnlt : ¬ (h.mallocTimer.mallocOps + (r : Int) < cfg.MallocSamplingRateBytes) :=
        not_lt.mpr hge
      simp [hc, fileWrites, raises, hge, hnlt]
  · intro H S cfg h ptr r s1 hT ha0 _ hp hf hs
    have hz := MallocTimer.registerMalloc_zero_iff cfg.FreeSamplingRateBytes
      { mallocOps := h.freeTimer.freeOps } r hT ha0 hs
    rcases hres : FreeTimer.registerFree cfg.FreeSamplingRateBytes h.freeTimer r with ⟨c, t⟩
    have hz2 : c = 0 ↔ h.freeTimer.freeOps + (r : Int) < cfg.FreeSamplingRateBytes := by
      have h3 := congrArg Prod.fst (FreeTimer.registerFree_eq cfg.FreeSamplingRateBytes
        h.freeTimer r)
      rw [hres] at h3
      simp only at h3
      rw [h3]
      exact hz
    rw [SampleHeap.free_step S cfg h ptr r s1 c t hp hf hres]
    by_cases hc : c = 0
    · have hlt := hz2.mp hc
      have hnle : ¬ (cfg.FreeSamplingRateBytes ≤ h.freeTimer.freeOps + (r : Int)) :=
        not_le.mpr hlt
      simp [hc, fileWrites, raises, hlt, hnle]
    · have hge : cfg.FreeSamplingRateBytes ≤ h.freeTimer.freeOps + (r : Int) := by
        by_contra hn
        exact hc (hz2.mpr (not_le.mp hn))
      have hnlt : ¬ (h.freeTimer.freeOps + (r : Int) < cfg.FreeSamplingRateBytes) :=
        not_lt.mpr hge
      simp [hc, fileWrites, raises, hge, hnlt]

/-- Witness for C11 amended: threshold 1000, accumulator 600, size 500 gives a
non-zero count that is at least 1; releasing a block of 1000 bytes with free
threshold 1000 and accumulator 0 raises `FreeSignal`. -/
theorem C11_zero_sentinel_witness :
    ((0 : Int) < 1000 ∧ (0 : Int) ≤ 600 ∧ (600 : Int) < 1000
      ∧ (600 : Int) + ((500 : Nat) : Int) < 2 ^ 63
      ∧ ¬ ((600 : Int) + ((500 : Nat) : Int) < 1000))
    ∧ (MallocTimer.registerMalloc 1000 { mallocOps := 600 } 500).1 ≠ 0
    ∧ 1 ≤ (MallocTimer.registerMalloc 1000 { mallocOps := 600 } 500).1
    ∧ raises (SampleHeap.free exactHeap demoConfig
        (SampleHeap.ctor { next := 5096, blocks := [(4096, 1000)] }).1 4096).trace
        = [FreeSignal] := by
  have hgen := C11_zero_sentinel.1 1000 600 500 (by decide) (by decide) (by decide)
  have hne : (MallocTimer.registerMalloc 1000 { mallocOps := 600 } 500).1 ≠ 0 :=
    fun h0 => absurd ((hgen.2.2 (by decide)).1.mp h0) (by decide)
  have hfree := C11_zero_sentinel.2.2 BumpState exactHeap demoConfig
      (SampleHeap.ctor { next := 5096, blocks := [(4096, 1000)] }).1 4096 1000
      { next := 5096, blocks := [] }
      (by decide) (by decide) (by decide) (by decide) (by decide) (by decide)
  have hraise := hfree.1.mpr (by decide)
  refine ⟨?_, ?_, ?_, ?_⟩
  · decide
  · exact hne
  · exact hgen.1 hne
  · exact hraise

/-- Claim C12. The two event classes use disjoint channels: the two file names
differ and the two signals differ; for every decorator state `SampleHeap::free`
writes only to the free signal file and raises only `FreeSignal`, and
`SampleHeap::malloc` writes only to the malloc signal file and raises only
`MallocSignal`. Scenario: free threshold 1000 and one release of actual size
1000 on a fresh decorator give exactly one notification with count 1 on the
deallocation channel and nothing on the allocation channel. -/
theorem C12_disjoint_channels :
    (scalene_malloc_signal_filename ≠ scalene_free_signal_filename
      ∧ MallocSignal ≠ FreeSignal)
    ∧ (∀ (H : Type) (S : SuperHeap H) (cfg : Config) (h : SampleHeap H) (ptr : Nat),
        writesTo scalene_malloc_signal_filename (SampleHeap.free S cfg h ptr).trace = []
        ∧ MallocSignal ∉ raises (SampleHeap.free S cfg h ptr).trace
        ∧ (∀ w ∈ fileWrites (SampleHeap.free S cfg h ptr).trace,
            w.1 = scalene_free_signal_filename)
        ∧ (∀ sig ∈ raises (SampleHeap.free S cfg h ptr).trace, sig = FreeSignal))
    ∧ (∀ (H : Type) (S : SuperHeap H) (cfg : Config) (h : SampleHeap H) (sz : Nat),
        writesTo scalene_free_signal_filename (SampleHeap.malloc S cfg h sz).trace = []
        ∧ FreeSignal ∉ raises (SampleHeap.malloc S cfg h sz).trace
        ∧ (∀ w ∈ fileWrites (SampleHeap.malloc S cfg h sz).trace,
            w.1 = scalene_malloc_signal_filename)
        ∧ (∀ sig ∈ raises (SampleHeap.malloc S cfg h sz).trace, sig = MallocSignal))
    ∧ ((SampleHeap.free exactHeap demoConfig
          (SampleHeap.ctor { next := 5096, blocks := [(4096, 1000)] }).1 4096).trace
          = [Event.superFree 4096,
             Event.openFile scalene_free_signal_filename,
             Event.writeFile scalene_free_signal_filename 1,
             Event.closeFile scalene_free_signal_filename,
             Event.raise FreeSignal]
      ∧ fileWrites (SampleHeap.free exactHeap demoConfig
          (SampleHeap.ctor { next := 5096, blocks := [(4096, 1000)] }).1 4096).trace
          = [(scalene_free_signal_filename, 1)]
      ∧ raises (SampleHeap.free exactHeap demoConfig
          (SampleHeap.ctor { next := 5096, blocks := [(4096, 1000)] }).1 4096).trace
          = [FreeSignal]
      ∧ writesTo scalene_malloc_signal_filename (SampleHeap.free exactHeap demoConfig
          (SampleHeap.ctor { next := 5096, blocks := [(4096, 1000)] }).1 4096).trace = []) := by
  have hfile : scalene_malloc_signal_filename ≠ scalene_free_signal_filename := by decide
  have hfile2 : scalene_free_signal_filename ≠ scalene_malloc_signal_filename := by decide
  have hsig : MallocSignal ≠ FreeSignal := by decide
  have hsig2 : FreeSignal ≠ MallocSignal := by decide
  refine ⟨⟨hfile, hsig⟩, ?_, ?_, ?_⟩
  · intro H S cfg h ptr
    unfold SampleHeap.free
    simp only []
    repeat' split
    all_goals simp [writesTo, raises, fileWrites, SampleHeap.writeCount, hfile2, hsig]
  · intro H S cfg h sz
    unfold SampleHeap.malloc
    simp only []
    repeat' split
    all_goals simp [writesTo, raises, fileWrites, SampleHeap.writeCount, hfile, hsig2]
  · have htr : (SampleHeap.free exactHeap demoConfig
          (SampleHeap.ctor { next := 5096, blocks := [(4096, 1000)] }).1 4096).trace
          = [Event.superFree 4096,
             Event.openFile scalene_free_signal_filename,
             Event.writeFile scalene_free_signal_filename 1,
             Event.closeFile scalene_free_signal_filename,
             Event.raise FreeSignal] := by
      rw [SampleHeap.free_step exactHeap demoConfig
        (SampleHeap.ctor { next := 5096, blocks := [(4096, 1000)] }).1 4096 1000
        { next := 5096, blocks := [] } 1 { freeOps := 0 } (by decide) (by decide)
        (by
          have ha : addAssign64 0 1000 = 1000 := by decide
          simp [FreeTimer.registerFree, SampleHeap.ctor, FreeTimer.ctor, demoConfig, ha])]
      simp
    rw [htr]
    simp [fileWrites, raises, writesTo, hfile2]

/-- Witness for C12: in the scenario the release writes `(free file, 1)` and
raises `FreeSignal`; both are on the deallocation channel. -/
theorem C12_disjoint_channels_witness :
    ((scalene_free_signal_filename, (1 : ℚ)) ∈ fileWrites (SampleHeap.free exactHeap demoConfig
        (SampleHeap.ctor { next := 5096, blocks := [(4096, 1000)] }).1 4096).trace
      ∧ FreeSignal ∈ raises (SampleHeap.free exactHeap demoConfig
        (SampleHeap.ctor { next := 5096, blocks := [(4096, 1000)] }).1 4096).trace)
    ∧ ((scalene_free_signal_filename, (1 : ℚ)) : String × ℚ).1 = scalene_free_signal_filename
    ∧ FreeSignal = FreeSignal := by
  have hw : (scalene_free_signal_filename, (1 : ℚ)) ∈ fileWrites (SampleHeap.free exactHeap
      demoConfig (SampleHeap.ctor { next := 5096, blocks := [(4096, 1000)] }).1 4096).trace := by
    rw [C12_disjoint_channels.2.2.2.2.1]
    exact List.mem_singleton.mpr rfl
  have hr : FreeSignal ∈ raises (SampleHeap.free exactHeap demoConfig
      (SampleHeap.ctor { next := 5096, blocks := [(4096, 1000)] }).1 4096).trace := by
    rw [C12_disjoint_channels.2.2.2.2.2.1]
    exact List.mem_singleton.mpr rfl
  have hgen := C12_disjoint_channels.2.1 BumpState exactHeap demoConfig
    (SampleHeap.ctor { next := 5096, blocks := [(4096, 1000)] }).1 4096
  exact ⟨⟨hw, hr⟩, hgen.2.2.1 _ hw, hgen.2.2.2 _ hr⟩

/-- Claim C13. Whenever the timer called by `malloc` (a non-null block that
passed the assertions) or by `free` (a non-null pointer) reports a non-zero
count `c`, the events of the call after the calls into the wrapped heap are
exactly: open, one write of `c`, close on the malloc (resp. free) notification
file, then one raise of `MallocSignal` (resp. `FreeSignal`). The written value
is the count the timer returned, the raise follows the write, and neither
happens twice. -/
theorem C13_write_then_raise :
    (∀ (H : Type) (S : SuperHeap H) (cfg : Config) (h : SampleHeap H)
        (sz ptr r : Nat) (s1 s2 : H) (c : ℚ) (t : MallocTimer),
        S.malloc h.super sz = (ptr, s1) →
        S.getSize s1 ptr = (r, s2) →
        ptr ≠ nullptr →
        (cfg.NDEBUG = true ∨ (sz ≤ r ∧ (sz < 16 ∨ r ≤ (2 * sz) % 2 ^ 64))) →
        MallocTimer.registerMalloc cfg.MallocSamplingRateBytes h.mallocTimer r = (c, t) →
        c ≠ 0 →
        (SampleHeap.malloc S cfg h sz).trace
            = [Event.superMalloc sz, Event.superGetSize ptr,
               Event.openFile scalene_malloc_signal_filename,
               Event.writeFile scalene_malloc_signal_filename c,
               Event.closeFile scalene_malloc_signal_filename,
               Event.raise MallocSignal]
        ∧ fileWrites (SampleHeap.malloc S cfg h sz).trace
            = [(scalene_malloc_signal_filename, c)]
        ∧ raises (SampleHeap.malloc S cfg h sz).trace = [MallocSignal])
    ∧ (∀ (H : Type) (S : SuperHeap H) (cfg : Config) (h : SampleHeap H)
        (ptr r : Nat) (s1 : H) (c : ℚ) (t : FreeTimer),
        ptr ≠ nullptr →
        S.free h.super ptr = (r, s1) →
        FreeTimer.registerFree cfg.FreeSamplingRateBytes h.freeTimer r = (c, t) →
        c ≠ 0 →
        (SampleHeap.free S cfg h ptr).trace
            = [Event.superFree ptr,
               Event.openFile scalene_free_signal_filename,
               Event.writeFile scalene_free_signal_filename c,
               Event.closeFile scalene_free_signal_filename,
               Event.raise FreeSignal]
        ∧ fileWrites (SampleHeap.free S cfg h ptr).trace
            = [(scalene_free_signal_filename, c)]
        ∧ raises (SampleHeap.free S cfg h ptr).trace = [FreeSignal]) := by
  constructor
  · intro H S cfg h sz ptr r s1 s2 c t hm hg hp hA ht hc
    rw [SampleHeap.malloc_step S cfg h sz ptr r s1 s2 c t hm hg hp hA ht]
    simp [hc, fileWrites, raises]
  · intro H S cfg h ptr r s1 c t hp hf ht hc
    rw [SampleHeap.free_step S cfg h ptr r s1 c t hp hf ht]
    simp [hc, fileWrites, raises]

/-- Witness for C13: threshold 1000, accumulator 600, and a request of 500
bytes served by a block of actual size 500; the timer reports 11/10. -/
theorem C13_write_then_raise_witness :
    (exactHeap.malloc bumpInit 500 = (4096, { next := 4596, blocks := [(4096, 500)] })
      ∧ MallocTimer.registerMalloc demoConfig.MallocSamplingRateBytes { mallocOps := 600 } 500
          = (11 / 10, { mallocOps := 0 })
      ∧ (11 / 10 : ℚ) ≠ 0)
    ∧ (SampleHeap.malloc exactHeap demoConfig
        { mallocTimer := { mallocOps := 600 }, freeTimer := FreeTimer.ctor, super := bumpInit }
        500).trace
        = [Event.superMalloc 500, Event.superGetSize 4096,
           Event.openFile scalene_malloc_signal_filename,
           Event.writeFile scalene_malloc_signal_filename (11 / 10),
           Event.closeFile scalene_malloc_signal_filename,
           Event.raise MallocSignal] := by
  have ht : MallocTimer.registerMalloc demoConfig.MallocSamplingRateBytes
      { mallocOps := 600 } 500 = (11 / 10, { mallocOps := 0 }) := by
    have ha : addAssign64 600 500 = 1100 := by decide
    simp [MallocTimer.registerMalloc, demoConfig, ha]
    norm_num
  have hc : (11 / 10 : ℚ) ≠ 0 := by norm_num
  have hmain := C13_write_then_raise.1 BumpState exactHeap demoConfig
    { mallocTimer := { mallocOps := 600 }, freeTimer := FreeTimer.ctor, super := bumpInit }
    500 4096 500 { next := 4596, blocks := [(4096, 500)] }
    { next := 4596, blocks := [(4096, 500)] } (11 / 10) { mallocOps := 0 }
    (by decide) (by decide) (by decide) (Or.inr (by decide)) ht hc
  exact ⟨⟨by decide, ht, hc⟩, hmain.1⟩

/-- Claim C14. After every sequence of `malloc` / `free` calls served by a
decorator, the empty sequence and sequences without any sample included, the
destructor unlinks the malloc notification file and the free notification
file; the events of a whole lifetime that reaches the destructor end with these
two `unlink` calls. -/
theorem C14_destructor_unlinks {H : Type} (S : SuperHeap H) (cfg : Config) (s0 : H)
    (calls : List Call) :
    SampleHeap.dtor (SampleHeap.run S cfg (SampleHeap.ctor s0).1 calls).heap
        = [Event.unlink scalene_malloc_signal_filename,
           Event.unlink scalene_free_signal_filename]
    ∧ unlinkCalls (SampleHeap.dtor (SampleHeap.run S cfg (SampleHeap.ctor s0).1 calls).heap)
        = [scalene_malloc_signal_filename, scalene_free_signal_filename]
    ∧ ((SampleHeap.run S cfg (SampleHeap.ctor s0).1 calls).aborted = false →
        SampleHeap.lifetime S cfg s0 calls
          = (SampleHeap.ctor s0).2 ++ (SampleHeap.run S cfg (SampleHeap.ctor s0).1 calls).trace
              ++ [Event.unlink scalene_malloc_signal_filename,
                  Event.unlink scalene_free_signal_filename])
    ∧ SampleHeap.lifetime S cfg s0 []
        = [Event.signalIgnore MallocSignal, Event.signalIgnore FreeSignal,
           Event.unlink scalene_malloc_signal_filename,
           Event.unlink scalene_free_signal_filename] := by
  refine ⟨rfl, rfl, ?_, rfl⟩
  intro hab
  simp [SampleHeap.lifetime, hab, SampleHeap.dtor]

/-- Witness for C14: a lifetime with one allocation of 300 bytes, below the
threshold 1000, so that no sample is ever triggered. -/
theorem C14_destructor_unlinks_witness :
    (SampleHeap.run exactHeap demoConfig (SampleHeap.ctor bumpInit).1
        [Call.malloc 300]).aborted = false
    ∧ fileWrites (SampleHeap.run exactHeap demoConfig (SampleHeap.ctor bumpInit).1
        [Call.malloc 300]).trace = []
    ∧ SampleHeap.lifetime exactHeap demoConfig bumpInit [Call.malloc 300]
        = (SampleHeap.ctor bumpInit).2
            ++ (SampleHeap.run exactHeap demoConfig (SampleHeap.ctor bumpInit).1
                [Call.malloc 300]).trace
            ++ [Event.unlink scalene_malloc_signal_filename,
                Event.unlink scalene_free_signal_filename] :=
  ⟨by decide, by decide,
   (C14_destructor_unlinks exactHeap demoConfig bumpInit [Call.malloc 300]).2.2.1 (by decide)⟩

/-- Counterexample to C15 as stated: the example heap that hands out chunks of
1024 bytes satisfies the stated contract (every non-null block is at least as
large as the request), yet with assertions enabled a request of 64 bytes gets a
block of 1024 bytes, the second assertion fails, and the call does not return
the pointer. -/
theorem C15_counterexample :
    (∀ (s : BumpState) (sz : Nat), (chunkHeap.malloc s sz).1 ≠ nullptr →
        sz ≤ (chunkHeap.getSize (chunkHeap.malloc s sz).2 (chunkHeap.malloc s sz).1).1)
    ∧ (chunkHeap.malloc bumpInit 64).1 = 4096
    ∧ (chunkHeap.malloc bumpInit 64).1 ≠ nullptr
    ∧ (chunkHeap.getSize (chunkHeap.malloc bumpInit 64).2 4096).1 = 1024
    ∧ demoConfig.NDEBUG = false
    ∧ (SampleHeap.malloc chunkHeap demoConfig (SampleHeap.ctor bumpInit).1 64).ret = none
    ∧ (SampleHeap.malloc chunkHeap demoConfig (SampleHeap.ctor bumpInit).1 64).ret
        ≠ some (chunkHeap.malloc bumpInit 64).1 := by
  refine ⟨?_, by decide, by decide, by decide, by decide, by decide, by decide⟩
  intro s sz hp
  by_cases hfit : s.next + (sz + 1023) / 1024 * 1024 ≤ 1000000
  · simp only [chunkHeap, bumpHeap, if_pos hfit, List.lookup, beq_self_eq_true,
      Option.getD_some]
    omega
  · simp [chunkHeap, bumpHeap, if_neg hfit] at hp

/-- Claim C15, amended. For a request of `sz` bytes answered by a non-null block
of actual size `r`, neither assertion of `SampleHeap::malloc` fails and the call
returns the pointer exactly when the build defines `NDEBUG` or `sz ≤ r` and
(`sz < 16` or `r ≤ 2 * sz`, the product being taken in `size_t`, that is
modulo `2^64`); otherwise the call aborts. The bound `sz ≤ r` alone is not
enough. -/
theorem C15_malloc_completes {H : Type} (S : SuperHeap H) (cfg : Config)
    (h : SampleHeap H) (sz ptr r : Nat) (s1 s2 : H)
    (hm : S.malloc h.super sz = (ptr, s1)) (hg : S.getSize s1 ptr = (r, s2))
    (hp : ptr ≠ nullptr) :
    ((SampleHeap.malloc S cfg h sz).ret = some ptr
        ↔ (cfg.NDEBUG = true ∨ (sz ≤ r ∧ (sz < 16 ∨ r ≤ (2 * sz) % 2 ^ 64))))
    ∧ ((SampleHeap.malloc S cfg h sz).ret = none
        ↔ (cfg.NDEBUG = false ∧ ¬ (sz ≤ r ∧ (sz < 16 ∨ r ≤ (2 * sz) % 2 ^ 64)))) := by
  by_cases hA : cfg.NDEBUG = true ∨ (sz ≤ r ∧ (sz < 16 ∨ r ≤ (2 * sz) % 2 ^ 64))
  · have hret : (SampleHeap.malloc S cfg h sz).ret = some ptr := by
      rw [SampleHeap.malloc_step S cfg h sz ptr r s1 s2 _ _ hm hg hp hA rfl]
    constructor
    · exact ⟨fun _ => hA, fun _ => hret⟩
    · constructor
      · intro hnone
        rw [hret] at hnone
        exact absurd hnone (by simp)
      · intro hbad
        rcases hA with hN | hB
        · rw [hN] at hbad
          exact absurd hbad.1 (by simp)
        · exact absurd hB hbad.2
  · have hN : cfg.NDEBUG = false := by
      cases hcfg : cfg.NDEBUG with
      | false => rfl
      | true => exact absurd (Or.inl hcfg) hA
    have hB : ¬ (sz ≤ r ∧ (sz < 16 ∨ r ≤ (2 * sz) % 2 ^ 64)) := fun hb => hA (Or.inr hb)
    have hret : (SampleHeap.malloc S cfg h sz).ret = none := by
      rw [SampleHeap.malloc_abort S cfg h sz ptr r s1 s2 hm hg hp hN hB]
    constructor
    · constructor
      · intro hsome
        rw [hret] at hsome
        exact absurd hsome (by simp)
      · intro hA2
        exact absurd hA2 hA
    · exact ⟨fun _ => ⟨hN, hB⟩, fun _ => hret⟩

/-- Witness for C15 amended: with assertions enabled, a request of 500 bytes
served by a block of exactly 500 bytes returns the pointer 4096; a request of
`2^63` bytes served by a block of `2^63` bytes aborts, because `2 * sz` is 0 in
`size_t`. -/
theorem C15_malloc_completes_witness :
    (exactHeap.malloc (SampleHeap.ctor bumpInit).1.super 500
        = (4096, { next := 4596, blocks := [(4096, 500)] })
      ∧ exactHeap.getSize { next := 4596, blocks := [(4096, 500)] } 4096
        = (500, { next := 4596, blocks := [(4096, 500)] })
      ∧ (4096 : Nat) ≠ nullptr)
    ∧ (SampleHeap.malloc exactHeap demoConfig (SampleHeap.ctor bumpInit).1 500).ret
        = some 4096
    ∧ (SampleHeap.malloc (bumpHeap (fun sz => sz) (2 ^ 64)) demoConfig
        (SampleHeap.ctor bumpInit).1 (2 ^ 63)).ret = none := by
  have hmain := C15_malloc_completes exactHeap demoConfig (SampleHeap.ctor bumpInit).1
    500 4096 500 { next := 4596, blocks := [(4096, 500)] }
    { next := 4596, blocks := [(4096, 500)] } (by decide) (by decide) (by decide)
  have hbig := C15_malloc_completes (bumpHeap (fun sz => sz) (2 ^ 64)) demoConfig
    (SampleHeap.ctor bumpInit).1 (2 ^ 63) 4096 (2 ^ 63)
    { next := 4096 + 2 ^ 63, blocks := [(4096, 2 ^ 63)] }
    { next := 4096 + 2 ^ 63, blocks := [(4096, 2 ^ 63)] }
    (by decide) (by decide) (by decide)
  exact ⟨by decide, hmain.1.mpr (Or.inr (by decide)), hbig.2.mpr ⟨rfl, by decide⟩⟩

/-- Claim C16. In the events of a decorator object (construction, then any
sequence of `malloc` and `free` calls, then destruction if the process was not
aborted), every raise of a signal comes after the `signal(sig, SIG_IGN)` call of
the constructor for that same signal, and the two calls of the constructor are
the only `signal` calls, so the decorator never changes the disposition again. -/
theorem C16_raise_after_ignore {H : Type} (S : SuperHeap H) (cfg : Config) (s0 : H)
    (calls : List Call) :
    (∀ (pre post : List Event) (sig : Signal),
        SampleHeap.lifetime S cfg s0 calls = pre ++ Event.raise sig :: post →
        Event.signalIgnore sig ∈ pre)
    ∧ (SampleHeap.ctor s0).2
        = [Event.signalIgnore MallocSignal, Event.signalIgnore FreeSignal]
    ∧ signalCalls (SampleHeap.lifetime S cfg s0 calls) = [MallocSignal, FreeSignal]
    ∧ signalCalls (SampleHeap.run S cfg (SampleHeap.ctor s0).1 calls).trace = [] := by
  refine ⟨?_, rfl, ?_, SampleHeap.run_no_signal_call S cfg calls _⟩
  · intro pre post sig heq
    rw [SampleHeap.lifetime_eq] at heq
    cases pre with
    | nil => simp at heq
    | cons a pre1 =>
        cases pre1 with
        | nil => simp at heq
        | cons b pre2 =>
            simp only [List.cons_append, List.cons.injEq] at heq
            rw [← heq.1, ← heq.2.1]
            cases sig <;> simp [MallocSignal, FreeSignal]
  · rw [SampleHeap.lifetime_eq]
    simp only [signalCalls, signalCalls_append, SampleHeap.run_no_signal_call]
    split <;> simp [signalCalls, SampleHeap.dtor]

/-- Witness for C16: one allocation of 1000 bytes with threshold 1000; the raise
of `MallocSignal` is the eighth event and the constructor call
`signal(MallocSignal, SIG_IGN)` is the first. -/
theorem C16_raise_after_ignore_witness :
    SampleHeap.lifetime exactHeap demoConfig bumpInit [Call.malloc 1000]
        = [Event.signalIgnore MallocSignal, Event.signalIgnore FreeSignal,
           Event.superMalloc 1000, Event.superGetSize 4096,
           Event.openFile scalene_malloc_signal_filename,
           Event.writeFile scalene_malloc_signal_filename 1,
           Event.closeFile scalene_malloc_signal_filename]
          ++ Event.raise MallocSignal
            :: [Event.unlink scalene_malloc_signal_filename,
                Event.unlink scalene_free_signal_filename]
    ∧ Event.signalIgnore MallocSignal
        ∈ [Event.signalIgnore MallocSignal, Event.signalIgnore FreeSignal,
           Event.superMalloc 1000, Event.superGetSize 4096,
           Event.openFile scalene_malloc_signal_filename,
           Event.writeFile scalene_malloc_signal_filename 1,
           Event.closeFile scalene_malloc_signal_filename] := by
  have hlife : SampleHeap.lifetime exactHeap demoConfig bumpInit [Call.malloc 1000]
        = [Event.signalIgnore MallocSignal, Event.signalIgnore FreeSignal,
           Event.superMalloc 1000, Event.superGetSize 4096,
           Event.openFile scalene_malloc_signal_filename,
           Event.writeFile scalene_malloc_signal_filename 1,
           Event.closeFile scalene_malloc_signal_filename]
          ++ Event.raise MallocSignal
            :: [Event.unlink scalene_malloc_signal_filename,
                Event.unlink scalene_free_signal_filename] := by
    have ha : addAssign64 0 1000 = 1000 := by decide
    simp [SampleHeap.lifetime, SampleHeap.run, SampleHeap.malloc, SampleHeap.ctor,
      SampleHeap.dtor, exactHeap, bumpHeap, bumpInit, demoConfig, assertPasses,
      MallocTimer.registerMalloc, MallocTimer.ctor, nullptr, SampleHeap.writeCount,
      List.lookup, ha]
  exact ⟨hlife,
    (C16_raise_after_ignore exactHeap demoConfig bumpInit [Call.malloc 1000]).1 _ _ _ hlife⟩

/-- Claim C17. Byte conservation: with a positive threshold `T` and a freshly
constructed timer, in exact rational arithmetic without overflow, after any
sequence of sizes, `T` times the sum of all counts reported so far plus the
current accumulator equals the sum of all sizes fed so far, and the accumulator
(the only unreported bytes) lies in `[0, T)`. This holds for the allocation
timer and for the deallocation timer, over unbounded integers and, when no
addition wraps, for the methods of the code over 64-bit integers. -/
theorem C17_byte_conservation (T : Int) (hT : 0 < T) (sizes : List Nat) :
    ((T : ℚ) * (MallocTimer.feedExact T MallocTimer.ctor sizes).1.sum
          + ((MallocTimer.feedExact T MallocTimer.ctor sizes).2.mallocOps : ℚ)
        = ((sizes.sum : Nat) : ℚ)
      ∧ 0 ≤ (MallocTimer.feedExact T MallocTimer.ctor sizes).2.mallocOps
      ∧ (MallocTimer.feedExact T MallocTimer.ctor sizes).2.mallocOps < T)
    ∧ ((T : ℚ) * (FreeTimer.feedExact T FreeTimer.ctor sizes).1.sum
          + ((FreeTimer.feedExact T FreeTimer.ctor sizes).2.freeOps : ℚ)
        = ((sizes.sum : Nat) : ℚ)
      ∧ 0 ≤ (FreeTimer.feedExact T FreeTimer.ctor sizes).2.freeOps
      ∧ (FreeTimer.feedExact T FreeTimer.ctor sizes).2.freeOps < T)
    ∧ (MallocTimer.noWrap T MallocTimer.ctor sizes = true →
        (T : ℚ) * (MallocTimer.feed T MallocTimer.ctor sizes).1.sum
            + ((MallocTimer.feed T MallocTimer.ctor sizes).2.mallocOps : ℚ)
          = ((sizes.sum : Nat) : ℚ)
        ∧ 0 ≤ (MallocTimer.feed T MallocTimer.ctor sizes).2.mallocOps
        ∧ (MallocTimer.feed T MallocTimer.ctor sizes).2.mallocOps < T)
    ∧ (FreeTimer.noWrap T FreeTimer.ctor sizes = true →
        (T : ℚ) * (FreeTimer.feed T FreeTimer.ctor sizes).1.sum
            + ((FreeTimer.feed T FreeTimer.ctor sizes).2.freeOps : ℚ)
          = ((sizes.sum : Nat) : ℚ)
        ∧ 0 ≤ (FreeTimer.feed T FreeTimer.ctor sizes).2.freeOps
        ∧ (FreeTimer.feed T FreeTimer.ctor sizes).2.freeOps < T) := by
  have hx := MallocTimer.feedExact_account T hT sizes
  refine ⟨hx, ?_, MallocTimer.feed_account T hT sizes, ?_⟩
  · rw [FreeTimer.feedExact_eq]
    exact hx
  · intro hw
    rw [FreeTimer.noWrap_eq] at hw
    rw [FreeTimer.feed_eq]
    exact MallocTimer.feed_account T hT sizes hw

/-- Witness for C17: threshold 1000 and sizes 300, 300, 500, 200. -/
theorem C17_byte_conservation_witness :
    ((0 : Int) < 1000
      ∧ MallocTimer.noWrap 1000 MallocTimer.ctor [300, 300, 500, 200] = true)
    ∧ ((1000 : Int) : ℚ) * (MallocTimer.feedExact 1000 MallocTimer.ctor [300, 300, 500, 200]).1.sum
          + ((MallocTimer.feedExact 1000 MallocTimer.ctor [300, 300, 500, 200]).2.mallocOps : ℚ)
        = ((([300, 300, 500, 200] : List Nat).sum : Nat) : ℚ)
    ∧ (MallocTimer.feedExact 1000 MallocTimer.ctor [300, 300, 500, 200]).2.mallocOps = 200
    ∧ ((1000 : Int) : ℚ) * (MallocTimer.feed 1000 MallocTimer.ctor [300, 300, 500, 200]).1.sum
          + ((MallocTimer.feed 1000 MallocTimer.ctor [300, 300, 500, 200]).2.mallocOps : ℚ)
        = ((([300, 300, 500, 200] : List Nat).sum : Nat) : ℚ)
    ∧ (MallocTimer.feed 1000 MallocTimer.ctor [300, 300, 500, 200]).2.mallocOps = 200 :=
  ⟨by decide,
   (C17_byte_conservation 1000 (by decide) [300, 300, 500, 200]).1.1,
   by decide,
   ((C17_byte_conservation 1000 (by decide) [300, 300, 500, 200]).2.2.1 (by decide)).1,
   by decide⟩

/-- Claim C18. With the accumulator a 64-bit signed `long` and the size a 64-bit
unsigned `size_t` (addition modulo `2^64`), a positive threshold `T`, an
accumulator `a` in `[0, T)` and a size `s` with `a + s < 2^63`: the addition
does not wrap, the accumulator stays non-negative, and `registerMalloc` and
`registerFree` return the same report and leave the same accumulator as the
definitions over unbounded integers, `registerMallocExact` and
`registerFreeExact`. -/
theorem C18_no_wrap_below_bound (T a : Int) (s : Nat) (hT : 0 < T) (ha0 : 0 ≤ a)
    (haT : a < T) (hs : a + (s : Int) < 2 ^ 63) :
    addAssign64 a s = a + (s : Int)
    ∧ 0 ≤ addAssign64 a s
    ∧ MallocTimer.registerMalloc T { mallocOps := a } s
        = MallocTimer.registerMallocExact T { mallocOps := a } s
    ∧ FreeTimer.registerFree T { freeOps := a } s
        = FreeTimer.registerFreeExact T { freeOps := a } s
    ∧ ((MallocTimer.registerMalloc T { mallocOps := a } s).1 ≠ 0
        ↔ (MallocTimer.registerMallocExact T { mallocOps := a } s).1 ≠ 0)
    ∧ ((FreeTimer.registerFree T { freeOps := a } s).1 ≠ 0
        ↔ (FreeTimer.registerFreeExact T { freeOps := a } s).1 ≠ 0)
    ∧ 0 ≤ (MallocTimer.registerMalloc T { mallocOps := a } s).2.mallocOps
    ∧ 0 ≤ (FreeTimer.registerFree T { freeOps := a } s).2.freeOps := by
  have hadd := addAssign64_exact a s ha0 hs
  have hm : MallocTimer.registerMalloc T { mallocOps := a } s
      = MallocTimer.registerMallocExact T { mallocOps := a } s := by
    simp only [MallocTimer.registerMalloc, MallocTimer.registerMallocExact, hadd]
  have hf : FreeTimer.registerFree T { freeOps := a } s
      = FreeTimer.registerFreeExact T { freeOps := a } s := by
    simp only [FreeTimer.registerFree, FreeTimer.registerFreeExact, hadd]
  have hb := MallocTimer.registerMallocExact_bounds T { mallocOps := a } s hT ha0
  refine ⟨hadd, ?_, hm, hf, ?_, ?_, ?_, ?_⟩
  · rw [hadd]; omega
  · rw [hm]
  · rw [hf]
  · rw [hm]; exact hb.1
  · rw [hf, FreeTimer.registerFreeExact_eq]; exact hb.1

/-- Witness for C18: threshold 1000, accumulator 600, size 500. -/
theorem C18_no_wrap_below_bound_witness :
    ((0 : Int) < 1000 ∧ (0 : Int) ≤ 600 ∧ (600 : Int) < 1000
      ∧ (600 : Int) + ((500 : Nat) : Int) < 2 ^ 63)
    ∧ addAssign64 600 500 = (600 : Int) + ((500 : Nat) : Int)
    ∧ MallocTimer.registerMalloc 1000 { mallocOps := 600 } 500
        = MallocTimer.registerMallocExact 1000 { mallocOps := 600 } 500 :=
  ⟨by decide,
   (C18_no_wrap_below_bound 1000 600 500 (by decide) (by decide) (by decide) (by decide)).1,
   (C18_no_wrap_below_bound 1000 600 500 (by decide) (by decide) (by decide) (by decide)).2.2.1⟩

end Scalene
